import Mathlib

/-!
# Streaming relay between a client and the generative backend

A shallow embedding of the relay of `action item/proxy/main.go`
(`proxyMessagesServer`, `proxyMessagesClient`, `handleFunctionCall` and the
weather providers they call, `setupVertexAI`, `handleClient`), of the
function-calling loop of `funtion-calling-vertex/main.go`
(`generateWithFuncCall`, its dispatch switch and its provider functions) and
of the query parser of `action item/currency.go` (`parseQuery`).

Conventions of the embedding:

* a Go `error` is the text of its message (what `%v` prints);
* the body of each `for` loop is a function from the state before one
  iteration and the frame that was read to the state after it, the effects of
  the iteration in the order the code issues them, and whether the loop goes on;
* what lies outside the repository (the network, the environment variables,
  speech synthesis) is a field of `Env`;
* `json.Unmarshal` is split in two: the syntax of JSON (a frame is given with
  its syntax tree, or without one when it is not JSON) and the decoding of a
  tree into the Go type, which is written out below;
* a whole relay function, and a whole session, is the list of its actions
  (reads, effects, closes, registry operations) up to its return; the two relay
  goroutines of a session are merged by a schedule.
-/

namespace Relay

/-! ## JSON values and strings -/

/-- A JSON value as `encoding/json` sees it. A number keeps its literal. -/
inductive JSON where
  | null
  | bool (b : Bool)
  | num (lit : String)
  | str (s : String)
  | arr (items : List JSON)
  | obj (members : List (String × JSON))

/-- Go map index `m[key]` on a map that was filled member by member: the last
member with that key is the one the map holds. -/
def mapIndex (m : List (String × JSON)) (key : String) : Option JSON :=
  m.foldl (fun acc kv => if kv.1 = key then some kv.2 else acc) none

/-- Go type assertion `v.(string)` on the result of a map index. -/
def asString : Option JSON → Option String
  | some (JSON.str s) => some s
  | _ => none

/-- Go `strings.Contains`. -/
def strings.Contains (s substr : String) : Bool :=
  s.data.tails.any (fun t => substr.data.isPrefixOf t)

/-- Whether `encoding/json` takes the member name `key` for the struct field
tagged `tag`: equality up to the case of letters. The tags of this program are
ASCII and have no `k` and no `s`, the two letters with a non-ASCII fold. -/
def foldEq (key tag : String) : Bool :=
  key.data.map Char.toLower == tag.data.map Char.toLower

/-! ## Connections, effects and the outside world -/

/-- The bytes handed to `WriteMessage`: a text built from a literal or with
`fmt.Sprintf`, or the `json.Marshal` of a value. -/
inductive Payload where
  | text (s : String)
  | marshal (v : JSON)

/-- One observable action of a relay, in program order. -/
inductive Effect where
  /-- `WriteMessage` on the client connection. -/
  | client (p : Payload)
  /-- `WriteMessage` on the backend connection. -/
  | backend (p : Payload)
  /-- `http.Get` on a provider URL. -/
  | httpGet (url : String)
  /-- A call of `textToSpeech`. -/
  | speech (text language : String)

/-- An HTTP response: `resp.StatusCode`, and what `io.ReadAll(resp.Body)`
returns (the bytes read and the error, if any). -/
structure HttpResponse where
  StatusCode : Nat
  Body : String
  ReadErr : Option String

/-- What the relay asks of the outside world. -/
structure Env where
  /-- `os.Getenv`. -/
  Getenv : String → String
  /-- `http.Get`: the response or the transport error. -/
  Get : String → Except String HttpResponse
  /-- `textToSpeech(text, language)`: the audio (base64) or the error. -/
  textToSpeech : String → String → Except String String
  /-- Whether `WriteMessage` of this payload on the backend connection returns
  an error. -/
  backendWriteFails : Payload → Bool
  /-- `strings.ToLower`. -/
  ToLower : String → String

/-- LocationState: the package variables `userLatitude`, `userLongitude`. -/
structure Location where
  userLatitude : String
  userLongitude : String
deriving DecidableEq

/-- The values the package variables are initialised with. -/
def initialLocation : Location :=
  { userLatitude := "-7.3305", userLongitude := "110.5084" }

/-! ## Frames of the backend -/

/-- One element of `ToolCall.FunctionCalls`. -/
structure FunctionCall where
  Name : String
  Args : List (String × JSON)

/-- One element of `ServerContent.ModelTurn.Parts`. -/
structure Part where
  Text : String

/-- The `ServerContent` member of `VertexAIMessage` (`ModelTurn.Parts` is
written `Parts`). -/
structure ServerContentT where
  TurnComplete : Bool
  Parts : List Part

/-- Go `VertexAIMessage`. `SetupComplete` is an empty struct and holds nothing;
`ToolCall` is a pointer, `none` when nil, and holds `FunctionCalls`. -/
structure VertexAIMessage where
  ServerContent : ServerContentT
  ToolCall : Option (List FunctionCall)
  GenerationComplete : Bool

/-- A frame read from the backend: its text, and what
`json.Unmarshal(message, &vertexMsg)` makes of it. -/
structure BackendFrame where
  raw : String
  decoded : Except String VertexAIMessage

/-- Go `genai.FunctionResponse`. -/
structure FunctionResponse where
  Name : String
  Response : List (String × JSON)

/-! ## Tool Executor of the relay -/

/-- The key `GetWeatherData` and `handleFunctionCall` use. -/
def openWeatherKey (env : Env) : String :=
  if env.Getenv "OPENWEATHERMAP_API_KEY" = "" then "b37372f2e51c91de829a24330f394857"
  else env.Getenv "OPENWEATHERMAP_API_KEY"

/-- The request URL both weather lookups build. -/
def weatherURL (lat lon apiKey : String) : String :=
  "https://api.openweathermap.org/data/2.5/weather?lat=" ++ lat ++ "&lon=" ++ lon ++
    "&units=metric&appid=" ++ apiKey

/-- Go `GetWeatherData`. -/
def GetWeatherData (env : Env) (lat lon : String) : List Effect × Except String String :=
  let url := weatherURL lat lon (openWeatherKey env)
  match env.Get url with
  | .error err => ([Effect.httpGet url], .error ("failed to fetch weather data: " ++ err))
  | .ok resp =>
    if resp.StatusCode ≠ 200 then
      ([Effect.httpGet url],
        .error ("OpenWeatherMap API error (" ++ toString resp.StatusCode ++ "): " ++ resp.Body))
    else
      match resp.ReadErr with
      | some err => ([Effect.httpGet url], .error ("failed to read weather response body: " ++ err))
      | none => ([Effect.httpGet url], .ok resp.Body)

/-- Go `GetWeatherByCity`: the URL is built from the package variables. -/
def GetWeatherByCity (env : Env) (loc : Location) (_city apiKey : String) :
    List Effect × Except String String :=
  let url := weatherURL loc.userLatitude loc.userLongitude apiKey
  match env.Get url with
  | .error err => ([Effect.httpGet url], .error ("failed to call weather API: " ++ err))
  | .ok resp =>
    match resp.ReadErr with
    | some err => ([Effect.httpGet url], .error ("failed to read weather API response: " ++ err))
    | none => ([Effect.httpGet url], .ok resp.Body)

/-- The `FunctionResponse` both branches of `get_weather` return. -/
def weatherResponse (result : String) : FunctionResponse :=
  { Name := "get_weather", Response := [("content", JSON.str result)] }

/-- Go `handleFunctionCall`. -/
def handleFunctionCall (env : Env) (loc : Location) (toolName : String)
    (params : List (String × JSON)) : List Effect × Except String FunctionResponse :=
  if toolName = "get_weather" then
    match asString (mapIndex params "latitude"), asString (mapIndex params "longitude") with
    | some latitude, some longitude =>
      match GetWeatherData env latitude longitude with
      | (effs, .error err) => (effs, .error ("failed to get weather data: " ++ err))
      | (effs, .ok result) => (effs, .ok (weatherResponse result))
    | _, _ =>
      match asString (mapIndex params "city") with
      | none =>
        ([], .error
          "invalid or missing 'latitude'/'longitude' or 'city' parameter in get_weather call")
      | some city =>
        match GetWeatherByCity env loc city (openWeatherKey env) with
        | (effs, .error err) =>
          (effs, .error ("failed to get weather for city " ++ city ++ ": " ++ err))
        | (effs, .ok result) => (effs, .ok (weatherResponse result))
  else
    ([], .error ("unknown function: " ++ toolName))

/-! ## Upstream Relay: `proxyMessagesServer` -/

/-- Go `isSetupComplete`. -/
def isSetupComplete (jsonStr : String) : Bool :=
  strings.Contains jsonStr "\"setupComplete\": \x7b\x7d"

/-- What one iteration of a relay loop leaves behind. -/
structure Iter (σ : Type) where
  state : σ
  effects : List Effect
  goesOn : Bool

/-- The fail notification of a read error of the backend connection. -/
def connectionLostMsg (err : String) : Payload :=
  Payload.text ("\x7b\"status\": \"fail\", \"code\": 500, \"message\": \"Connection to AI service lost: "
    ++ err ++ "\"\x7d")

/-- The fail notification of a frame that does not decode. -/
def decodeFailMsg : Payload :=
  Payload.text "\x7b\"status\": \"fail\", \"code\": 500, \"message\": \"Error processing AI response\"\x7d"

/-- The fail notification of a tool call that returned an error. -/
def toolFailMsg (name err : String) : Payload :=
  Payload.text ("\x7b\"status\": \"fail\", \"code\": 500, \"message\": \"Error executing function "
    ++ name ++ ": " ++ err ++ "\"\x7d")

/-- The function-result message: `json.Marshal(functionResponsePayload)`. -/
def functionResponseMsg (r : FunctionResponse) : Payload :=
  Payload.marshal (JSON.obj [("functionResponse", JSON.obj [("responses",
    JSON.arr [JSON.obj [("name", JSON.str r.Name), ("response", JSON.obj r.Response)]])])])

/-- The ready confirmation. -/
def connectedMsg : Payload :=
  Payload.text "\x7b\"status\": \"connected to Vertex AI\", \"code\": 200, \"message\": \"AI Assistant Ready\"\x7d"

/-- The success message of a completed turn: `json.Marshal(responseObj)`, with
the `audio` member when speech synthesis returned no error. -/
def successMsg (response : String) (audio : Option String) : Payload :=
  match audio with
  | none => Payload.marshal (JSON.obj
      [("status", JSON.str "success"), ("code", JSON.num "200"), ("response", JSON.str response)])
  | some a => Payload.marshal (JSON.obj
      [("status", JSON.str "success"), ("code", JSON.num "200"), ("response", JSON.str response),
       ("audio", JSON.str a)])

/-- The streaming update: `json.Marshal(streamingObj)`. -/
def streamingMsg (partMessage : String) : Payload :=
  Payload.marshal (JSON.obj
    [("status", JSON.str "streaming"), ("code", JSON.num "200"), ("partial", JSON.str partMessage)])

/-- The inner loop over `ModelTurn.Parts`: every non-empty text is appended. -/
def appendParts (partMessage : String) (parts : List Part) : String :=
  parts.foldl (fun acc part => if part.Text ≠ "" then acc ++ part.Text else acc) partMessage

/-- The first call of a frame, when `ToolCall != nil` and `FunctionCalls` is
not empty. -/
def firstCall (m : VertexAIMessage) : Option FunctionCall :=
  match m.ToolCall with
  | some (call :: _) => some call
  | _ => none

/-- The body of the `for` loop of `proxyMessagesServer`, on a frame that was
read: the state is `partMessage`. -/
def serverFrame (env : Env) (loc : Location) (partMessage : String) (f : BackendFrame) :
    Iter String :=
  match f.decoded with
  | .error _ => ⟨partMessage, [Effect.client decodeFailMsg], true⟩
  | .ok vertexMsg =>
    match firstCall vertexMsg with
    | some call =>
      match handleFunctionCall env loc call.Name call.Args with
      | (effs, .error err) =>
        ⟨partMessage, effs ++ [Effect.client (toolFailMsg call.Name err)], true⟩
      | (effs, .ok funcResponse) =>
        ⟨partMessage, effs ++ [Effect.backend (functionResponseMsg funcResponse)], true⟩
    | none =>
      if isSetupComplete f.raw then
        ⟨partMessage, [Effect.client connectedMsg], true⟩
      else if vertexMsg.ServerContent.TurnComplete then
        if partMessage ≠ "" then
          match env.textToSpeech partMessage "en-US" with
          | .error _ =>
            ⟨"", [Effect.speech partMessage "en-US", Effect.client (successMsg partMessage none)],
              true⟩
          | .ok audioContent =>
            ⟨"", [Effect.speech partMessage "en-US",
              Effect.client (successMsg partMessage (some audioContent))], true⟩
        else
          ⟨partMessage, [], true⟩
      else if vertexMsg.ServerContent.Parts.length > 0 then
        let partMessage' := appendParts partMessage vertexMsg.ServerContent.Parts
        ⟨partMessage', [Effect.client (streamingMsg partMessage')], true⟩
      else
        ⟨partMessage, [], true⟩

/-- The body of the `for` loop of `proxyMessagesServer`: `read` is what
`src.ReadMessage()` returned. (Before the loop the function deletes its entry
of `activeConnections` and calls `src.Close()`; what `ReadMessage` returns
after that is the library's matter and is an input here.) -/
def serverIter (env : Env) (loc : Location) (partMessage : String)
    (read : Except String BackendFrame) : Iter String :=
  match read with
  | .error err => ⟨partMessage, [Effect.client (connectionLostMsg err)], false⟩
  | .ok f => serverFrame env loc partMessage f

/-- The relay loop over the frames read one after the other, all of them read
without error: the accumulator at the end and the effects in order. -/
def serverRun (env : Env) (loc : Location) : String → List BackendFrame → String × List Effect
  | partMessage, [] => (partMessage, [])
  | partMessage, f :: fs =>
    let it := serverFrame env loc partMessage f
    let rest := serverRun env loc it.state fs
    (rest.1, it.effects ++ rest.2)

/-! ## Frames of the client -/

/-- A frame read from the client: a binary frame, given by the base64 text
`base64.StdEncoding.EncodeToString` makes of its bytes, or a text frame, given
by its JSON syntax tree (`none` when the text is not JSON). -/
inductive ClientFrame where
  | binary (base64Data : String)
  | text (parsed : Option JSON)

/-- Go `LocationMessage` (`Type_` is the field `Type`). -/
structure LocationMessage where
  Type_ : String
  Latitude : String
  Longitude : String

/-- Go `Message` (`Type_` is the field `Type`). -/
structure Message where
  Type_ : String
  Content : String

/-- Decoding of the members of an object into one string field of a struct,
member by member: a JSON string is stored, `null` is skipped, any other value
is a type error that `json.Unmarshal` reports at the end. The result is the
field and whether a type error was seen. -/
def stringField (tag : String) (members : List (String × JSON)) : String × Bool :=
  members.foldl (fun acc kv =>
    if foldEq kv.1 tag then
      match kv.2 with
      | JSON.str s => (s, acc.2)
      | JSON.null => acc
      | _ => (acc.1, true)
    else acc) ("", false)

/-- The call `json.Unmarshal(message, &locationMsg)`: `none` when it returns an
error. -/
def unmarshalLocationMessage : Option JSON → Option LocationMessage
  | some (JSON.obj members) =>
    let t := stringField "type" members
    let la := stringField "latitude" members
    let lo := stringField "longitude" members
    if t.2 || la.2 || lo.2 then none else some ⟨t.1, la.1, lo.1⟩
  | some JSON.null => some ⟨"", "", ""⟩
  | _ => none

/-- The call `json.Unmarshal(message, &requestMessage)`: `none` when it returns
an error. -/
def unmarshalMessage : Option JSON → Option Message
  | some (JSON.obj members) =>
    let t := stringField "type" members
    let c := stringField "content" members
    if t.2 || c.2 then none else some ⟨t.1, c.1⟩
  | some JSON.null => some ⟨"", ""⟩
  | _ => none

/-- The call `json.Unmarshal(message, &jsonData)` into a
`map[string]interface{}`: `none` when it returns an error; `null` leaves the
map nil, which holds no key. -/
def unmarshalMap : Option JSON → Option (List (String × JSON))
  | some (JSON.obj members) => some members
  | some JSON.null => some []
  | _ => none

/-! ## Downstream Relay: `proxyMessagesClient` -/

/-- The keywords of a question that needs the location. -/
def locationKeywords : List String :=
  ["di dekat", "terdekat", "sekitar sini", "di sekitar",
   "dekat sini", "di mana", "lokasi", "tempat", "jarak",
   "restoran", "kafe", "mall", "toko", "hotel", "wisata",
   "kuliner", "makanan", "minuman", "kopi", "nongkrong"]

/-- The loop over `locationKeywords` that sets `needsLocation`. -/
def needsLocation (lowerText : String) : Bool :=
  locationKeywords.any (fun keyword => strings.Contains lowerText keyword)

/-- The test of the keyword gate on the coordinates:
`userLatitude == "0.0" && userLongitude == "0.0"`. -/
def locationUnset (loc : Location) : Bool :=
  loc.userLatitude == "0.0" && loc.userLongitude == "0.0"

/-- The audio chunk a binary frame is wrapped in. -/
def binaryAudioMsg (base64Data : String) : Payload :=
  Payload.text ("\x7b\n\t\t\t\t\"realtimeInput\": \x7b\n\t\t\t\t\t\"mediaChunks\": [\x7b\n\t\t\t\t\t\t\"mime_type\": \"audio/webm\",\n\t\t\t\t\t\t\"data\": \""
    ++ base64Data ++ "\"\n\t\t\t\t\t\x7d]\n\t\t\t\t\x7d\n\t\t\t\x7d")

/-- The acknowledgment of an audio chunk. -/
def audioConfirmation : Payload :=
  Payload.text "\x7b\"status\": \"audio_received\", \"code\": 200\x7d"

/-- The acknowledgment of a location update. -/
def confirmationMsg : Payload :=
  Payload.text "\x7b\"status\": \"location_updated\", \"code\": 200, \"message\": \"Lokasi berhasil diperbarui\"\x7d"

/-- The request to switch the GPS on. -/
def locationRequestMsg : Payload :=
  Payload.text "\x7b\"status\": \"location_request\", \"code\": 200, \"message\": \"Untuk menjawab pertanyaan ini, kami memerlukan lokasi Anda. Mohon aktifkan GPS dan izinkan akses lokasi.\"\x7d"

/-- The side-channel message of a failed weather lookup. -/
def weatherFailedMsg (err : String) : Payload :=
  Payload.text ("\x7b\"status\":\"weather_failed\",\"message\":\"" ++ err ++ "\"\x7d")

/-- The side-channel message of a weather lookup. -/
def weatherResultMsg (weatherResult : String) : Payload :=
  Payload.text ("\x7b\"status\":\"weather_result\",\"data\":" ++ weatherResult ++ "\x7d")

/-- The inner `fmt.Sprintf` of both user turns: the content between two double
quotes (`json.RawMessage` and `string` convert the type, not the bytes). -/
def quoted (content : String) : String :=
  "\"" ++ content ++ "\""

/-- The text of the user turn of a free-form message. -/
def freeFormTurnText (textContent : String) : String :=
  "\x7b\n\t\t\t\t\t\"client_content\": \x7b\n\t\t\t\t\t\t\"turns\": [\x7b\n\t\t\t\t\t\t\t\"role\": \"user\",\n\t\t\t\t\t\t\t\"parts\": [\x7b \"text\": "
    ++ quoted textContent ++
    " \x7d]\n\t\t\t\t\t\t\x7d],\n\t\t\t\t\t\t\"turn_complete\": true\n\t\t\t\t\t\x7d\n\t\t\t\t\x7d"

/-- The text of the user turn of a structured message of type `text`. -/
def textTurnText (content : String) : String :=
  "\x7b\n\t\t\t\t\"client_content\": \x7b\n\t\t\t\t\t\"turns\": [\x7b\n\t\t\t\t\t\t\"role\": \"user\",\n\t\t\t\t\t\t\"parts\": [\x7b \"text\": "
    ++ quoted content ++
    " \x7d]\n\t\t\t\t\t\x7d],\n\t\t\t\t\t\"turn_complete\": true\n\t\t\t\t\x7d\n\t\t\t\x7d"

/-- The media chunk of a structured message of type `audio` or `image`. -/
def mediaChunkText (mime content : String) : String :=
  "\x7b\n\t\t\t\t\"realtimeInput\": \x7b\n                  \"mediaChunks\": [\x7b\n                    \"mime_type\": \""
    ++ mime ++ "\",\n                    \"data\": \"" ++ content ++
    "\"\n                  \x7d]\n                \x7d\n\t\t\t\x7d"

/-- The end-of-stream marker of a structured message of type `audio_end`. -/
def endOfStreamText : String :=
  "\x7b\n\t\t\t\t\"realtimeInput\": \x7b\n\t\t\t\t\t\"endOfStream\": true\n\t\t\t\t\x7d\n\t\t\t\x7d"

/-- The fail notification of a read error of the client connection. -/
def clientReadFailMsg (err : String) : Payload :=
  Payload.text ("\x7b\"status\": \"fail connect to websocket\", \"code\": 500, \"message\": \""
    ++ err ++ "\"\x7d")

/-- A write on the backend connection that ends the loop when it fails. -/
def forward (env : Env) (loc : Location) (before : List Effect) (p : Payload) : Iter Location :=
  ⟨loc, before ++ [Effect.backend p], !env.backendWriteFails p⟩

/-- The structured-message part of the loop body (from `var requestMessage`). -/
def clientStructured (env : Env) (loc : Location) (parsed : Option JSON) : Iter Location :=
  match unmarshalMessage parsed with
  | none => ⟨loc, [], true⟩
  | some requestMessage =>
    if requestMessage.Type_ = "" ∨ requestMessage.Content = "" then ⟨loc, [], true⟩
    else if requestMessage.Type_ = "text" then
      forward env loc [] (Payload.text (textTurnText requestMessage.Content))
    else if requestMessage.Type_ = "audio" then
      forward env loc [Effect.client audioConfirmation]
        (Payload.text (mediaChunkText "audio/webm" requestMessage.Content))
    else if requestMessage.Type_ = "audio_end" then
      forward env loc [] (Payload.text endOfStreamText)
    else if requestMessage.Type_ = "image" then
      forward env loc [] (Payload.text (mediaChunkText "image/jpeg" requestMessage.Content))
    else ⟨loc, [], true⟩

/-- The free-form part of the loop body, once `jsonData["text"]` is a string. -/
def clientFreeForm (env : Env) (loc : Location) (textContent : String) : Iter Location :=
  let lowerText := env.ToLower textContent
  if needsLocation lowerText && locationUnset loc then
    ⟨loc, [Effect.client locationRequestMsg], true⟩
  else if strings.Contains lowerText "cuaca" || strings.Contains lowerText "weather" then
    match GetWeatherData env loc.userLatitude loc.userLongitude with
    | (effs, .error err) => ⟨loc, effs ++ [Effect.client (weatherFailedMsg err)], true⟩
    | (effs, .ok weatherResult) =>
      ⟨loc, effs ++ [Effect.client (weatherResultMsg weatherResult)], true⟩
  else
    forward env loc [] (Payload.text (freeFormTurnText textContent))

/-- Whether the loop body takes the frame for a location update:
`err == nil && locationMsg.Type_ == "location"`. -/
def locationUpdate (parsed : Option JSON) : Option LocationMessage :=
  match unmarshalLocationMessage parsed with
  | some locationMsg => if locationMsg.Type_ = "location" then some locationMsg else none
  | none => none

/-- The body of the `for` loop of `proxyMessagesClient`, on a frame that was
read: the state is the LocationState. -/
def clientFrame (env : Env) (loc : Location) (f : ClientFrame) : Iter Location :=
  match f with
  | ClientFrame.binary base64Data =>
    if env.backendWriteFails (binaryAudioMsg base64Data) then
      ⟨loc, [Effect.backend (binaryAudioMsg base64Data)], false⟩
    else
      ⟨loc, [Effect.backend (binaryAudioMsg base64Data), Effect.client audioConfirmation], true⟩
  | ClientFrame.text parsed =>
    match locationUpdate parsed with
    | some locationMsg =>
      ⟨⟨locationMsg.Latitude, locationMsg.Longitude⟩, [Effect.client confirmationMsg], true⟩
    | none =>
      match unmarshalMap parsed with
      | some jsonData =>
        match asString (mapIndex jsonData "text") with
        | some textContent => clientFreeForm env loc textContent
        | none => clientStructured env loc parsed
      | none => clientStructured env loc parsed

/-- The body of the `for` loop of `proxyMessagesClient`: `read` is what
`src.ReadMessage()` returned. The fail notification of a read error is written
on `dest`, the backend connection. -/
def clientIter (env : Env) (loc : Location) (read : Except String ClientFrame) : Iter Location :=
  match read with
  | .error err => ⟨loc, [Effect.backend (clientReadFailMsg err)], false⟩
  | .ok f => clientFrame env loc f

/-! ## Vocabulary of the properties of the Upstream Relay -/

/-- Concatenation of texts, in order. -/
def concatTexts : List String → String
  | [] => ""
  | s :: ss => s ++ concatTexts ss

/-- The part texts of a frame, concatenated in order (of a frame that does not
decode: nothing). -/
def frameText (f : BackendFrame) : String :=
  match f.decoded with
  | .ok m => concatTexts (m.ServerContent.Parts.map Part.Text)
  | .error _ => ""

/-- The part texts of all the frames, concatenated in arrival order. -/
def allText (frames : List BackendFrame) : String :=
  concatTexts (frames.map frameText)

/-- An incremental-content frame: it decodes, has no tool call and no
setup-acknowledgment marker, `turn_complete` is false and there is at least one
model-turn part. -/
def isContentFrame (f : BackendFrame) : Bool :=
  match f.decoded with
  | .ok m =>
    (firstCall m).isNone && !isSetupComplete f.raw && !m.ServerContent.TurnComplete &&
      !m.ServerContent.Parts.isEmpty
  | .error _ => false

/-- A turn-complete frame: it decodes, has no tool call and no
setup-acknowledgment marker, and `turn_complete` is true. -/
def isTurnCompleteFrame (f : BackendFrame) : Bool :=
  match f.decoded with
  | .ok m => (firstCall m).isNone && !isSetupComplete f.raw && m.ServerContent.TurnComplete
  | .error _ => false

/-- The accumulated text after each of the frames, from the accumulator
`acc`. -/
def runningTexts : String → List BackendFrame → List String
  | _, [] => []
  | acc, f :: fs => (acc ++ frameText f) :: runningTexts (acc ++ frameText f) fs

/-- The first string is an initial segment of the second. -/
def StrPrefix (a b : String) : Prop :=
  a.data <+: b.data

/-! ## Concrete environments and frames -/

/-- An environment in which speech synthesis answers `tts`, every provider
request answers `get`, no environment variable is set, no write fails and
`strings.ToLower` lowers the ASCII letters. -/
def stubEnv (tts : Except String String) (get : Except String HttpResponse) : Env :=
  { Getenv := fun _ => "", Get := fun _ => get, textToSpeech := fun _ _ => tts,
    backendWriteFails := fun _ => false, ToLower := fun s => ⟨s.data.map Char.toLower⟩ }

/-- A backend frame with one model-turn part. -/
def partFrame (raw text : String) : BackendFrame :=
  { raw := raw, decoded := .ok ⟨⟨false, [⟨text⟩]⟩, none, false⟩ }

/-- The backend frame `{"server_content":{"turn_complete":true}}`. -/
def turnCompleteFrame : BackendFrame :=
  { raw := "\x7b\"server_content\":\x7b\"turn_complete\":true\x7d\x7d",
    decoded := .ok ⟨⟨true, []⟩, none, false⟩ }

/-- Three content frames, the second with an empty part beside its text. -/
def haloFrames : List BackendFrame :=
  [partFrame "\x7b\"server_content\":\x7b\"model_turn\":\x7b\"parts\":[\x7b\"text\":\"Ha\"\x7d]\x7d\x7d\x7d" "Ha",
   { raw := "\x7b\"server_content\":\x7b\"model_turn\":\x7b\"parts\":[\x7b\"text\":\"\"\x7d,\x7b\"text\":\"lo\"\x7d]\x7d\x7d\x7d",
     decoded := .ok ⟨⟨false, [⟨""⟩, ⟨"lo"⟩]⟩, none, false⟩ },
   partFrame "\x7b\"server_content\":\x7b\"model_turn\":\x7b\"parts\":[\x7b\"text\":\"!\"\x7d]\x7d\x7d\x7d" "!"]

/-- The content frame with the text "Selamat ". -/
def selamatFrame : BackendFrame :=
  partFrame "\x7b\"server_content\":\x7b\"model_turn\":\x7b\"parts\":[\x7b\"text\":\"Selamat \"\x7d]\x7d\x7d\x7d" "Selamat "

/-- The content frame with the text "pagi". -/
def pagiFrame : BackendFrame :=
  partFrame "\x7b\"server_content\":\x7b\"model_turn\":\x7b\"parts\":[\x7b\"text\":\"pagi\"\x7d]\x7d\x7d\x7d" "pagi"

/-- The messages written on the backend connection, in order. -/
def backendWrites (effects : List Effect) : List Payload :=
  effects.filterMap (fun e => match e with
    | Effect.backend p => some p
    | _ => none)

/-- The messages written on the client connection, in order. -/
def clientWrites (effects : List Effect) : List Payload :=
  effects.filterMap (fun e => match e with
    | Effect.client p => some p
    | _ => none)

/-- The provider requests, in order. -/
def providerRequests (effects : List Effect) : List String :=
  effects.filterMap (fun e => match e with
    | Effect.httpGet url => some url
    | _ => none)

/-- A backend frame that carries tool calls and nothing else. -/
def toolCallFrame (raw : String) (calls : List FunctionCall) : BackendFrame :=
  { raw := raw, decoded := .ok ⟨⟨false, []⟩, some calls, false⟩ }

/-- A tool call of `get_weather` with the coordinates of Sleman. -/
def weatherCallFrame : BackendFrame :=
  toolCallFrame
    "\x7b\"toolCall\":\x7b\"functionCalls\":[\x7b\"name\":\"get_weather\",\"args\":\x7b\"latitude\":\"-7.7325\",\"longitude\":\"110.4024\"\x7d\x7d]\x7d\x7d"
    [⟨"get_weather", [("latitude", JSON.str "-7.7325"), ("longitude", JSON.str "110.4024")]⟩]

/-- A tool call of `getExchangeRate` from USD to IDR. -/
def exchangeRateCallFrame : BackendFrame :=
  toolCallFrame
    "\x7b\"toolCall\":\x7b\"functionCalls\":[\x7b\"name\":\"getExchangeRate\",\"args\":\x7b\"from\":\"USD\",\"to\":\"IDR\"\x7d\x7d]\x7d\x7d"
    [⟨"getExchangeRate", [("from", JSON.str "USD"), ("to", JSON.str "IDR")]⟩]

/-- A provider answer with status 200 and this body. -/
def okResponse (body : String) : Except String HttpResponse :=
  .ok { StatusCode := 200, Body := body, ReadErr := none }

namespace Vertex

/-! ## The dispatch switch of `generateWithFuncCall`
(`funtion-calling-vertex/main.go`) -/

/-- A call of one of the provider functions of `funtion-calling-vertex`. -/
inductive ProviderCall where
  | GetWeatherDataByLatLong (lat lon : String)
  | GetWeatherDataByCity (city : String)
  | GetPlaceRecommendation (query : String)
  | GetExchangeRate (dari ke : String)
deriving DecidableEq

/-- What each provider function returns when it returns: the
`*genai.FunctionResponse` or the error. -/
structure Providers where
  GetWeatherDataByLatLong : String → String → Except String FunctionResponse
  GetWeatherDataByCity : String → Except String FunctionResponse
  GetPlaceRecommendation : String → Except String FunctionResponse
  GetExchangeRate : String → String → Except String FunctionResponse

/-- The `switch funcCall.Name` of `generateWithFuncCall`: the provider calls it
makes and the pair `funcResp`, `callErr` it leaves. -/
def dispatch (P : Providers) (funcCall : FunctionCall) :
    List ProviderCall × Except String FunctionResponse :=
  if funcCall.Name = "getCurrentWeather" then
    match asString (mapIndex funcCall.Args "latitude") with
    | some lat =>
      match asString (mapIndex funcCall.Args "longitude") with
      | some lon => ([ProviderCall.GetWeatherDataByLatLong lat lon], P.GetWeatherDataByLatLong lat lon)
      | none => ([], .error
          "invalid function call arguments for getCurrentWeather: 'longitude' missing or not a string")
    | none =>
      match asString (mapIndex funcCall.Args "city") with
      | some city => ([ProviderCall.GetWeatherDataByCity city], P.GetWeatherDataByCity city)
      | none => ([], .error
          "invalid function call arguments for getCurrentWeather: requires either (latitude, longitude) or city")
  else if funcCall.Name = "getPlaceRecommendation" then
    match asString (mapIndex funcCall.Args "query") with
    | some query => ([ProviderCall.GetPlaceRecommendation query], P.GetPlaceRecommendation query)
    | none => ([], .error
        "invalid function call arguments for getPlaceRecommendation: 'query' missing or not a string")
  else if funcCall.Name = "getExchangeRate" then
    match asString (mapIndex funcCall.Args "from"), asString (mapIndex funcCall.Args "to") with
    | some dari, some ke => ([ProviderCall.GetExchangeRate dari ke], P.GetExchangeRate dari ke)
    | _, _ => ([], .error
        "invalid function call arguments for getExchangeRate: requires 'from' and 'to' strings")
  else
    ([], .error ("unknown function call: " ++ funcCall.Name))

/-- The common error handling after the switch: the `FunctionResponse` that is
appended to the conversation. -/
def functionResult (funcCall : FunctionCall) (r : Except String FunctionResponse) :
    FunctionResponse :=
  match r with
  | .ok funcResp => funcResp
  | .error callErr =>
    { Name := funcCall.Name,
      Response := [("error", JSON.str
        ("Failed to execute function " ++ funcCall.Name ++ ": " ++ callErr))] }

/-- Providers that always answer with this response. -/
def constProviders (r : Except String FunctionResponse) : Providers :=
  { GetWeatherDataByLatLong := fun _ _ => r, GetWeatherDataByCity := fun _ => r,
    GetPlaceRecommendation := fun _ => r, GetExchangeRate := fun _ _ => r }

end Vertex

/-- A weather report as the provider sends it. -/
def cerahBody : String :=
  "\x7b\"weather\":[\x7b\"description\":\"cerah\"\x7d],\"main\":\x7b\"temp\":29.5\x7d\x7d"

/-- The answer of the currency provider with the rate 15000. -/
def rateBody : String :=
  "\x7b\"success\":true,\"info\":\x7b\"rate\":15000\x7d\x7d"

/-! ## Concrete client frames -/

/-- The client frame `{"type":"location","latitude":"-7.7325","longitude":"110.4024"}`. -/
def slemanLocationFrame : ClientFrame :=
  ClientFrame.text (some (JSON.obj [("type", JSON.str "location"),
    ("latitude", JSON.str "-7.7325"), ("longitude", JSON.str "110.4024")]))

/-- The client frame `{"type":"location","latitude":-7.7325,"longitude":110.4024}`:
the coordinates are JSON numbers. -/
def numericLocationFrame : ClientFrame :=
  ClientFrame.text (some (JSON.obj [("type", JSON.str "location"),
    ("latitude", JSON.num "-7.7325"), ("longitude", JSON.num "110.4024")]))

/-- The free-form client frame `{"text": t}`. -/
def freeFormFrame (t : String) : ClientFrame :=
  ClientFrame.text (some (JSON.obj [("text", JSON.str t)]))

/-- The member name selects one of the fields of `LocationMessage`. -/
def isLocationField (key : String) : Bool :=
  foldEq key "type" || foldEq key "latitude" || foldEq key "longitude"

/-! ## Well-formed JSON texts

The grammar of RFC 8259 on the code points of a text, used to say of a message
the relay writes that it is (or is not) well-formed JSON. -/

/-- JSON whitespace: space, tab, line feed, carriage return. -/
def isWs (c : Nat) : Bool :=
  c == 32 || c == 9 || c == 10 || c == 13

/-- A decimal digit. -/
def isDigit (c : Nat) : Bool :=
  decide (48 ≤ c) && decide (c ≤ 57)

/-- A hexadecimal digit. -/
def isHex (c : Nat) : Bool :=
  isDigit c || (decide (65 ≤ c) && decide (c ≤ 70)) || (decide (97 ≤ c) && decide (c ≤ 102))

/-- The text after the leading whitespace. -/
def skipWs : List Nat → List Nat
  | [] => []
  | c :: cs => if isWs c then skipWs cs else c :: cs

/-- The text after the leading digits. -/
def skipDigits : List Nat → List Nat
  | [] => []
  | c :: cs => if isDigit c then skipDigits cs else c :: cs

/-- What follows a JSON string, read from just after its opening quote: the
string ends at the first quote that is not escaped; a backslash starts one of
the escapes of the grammar; a control character is not allowed. -/
def stringRest : List Nat → Option (List Nat)
  | [] => none
  | c :: cs =>
    if c == 34 then some cs
    else if c == 92 then
      match cs with
      | [] => none
      | e :: cs1 =>
        if e == 117 then
          match cs1 with
          | h1 :: h2 :: h3 :: h4 :: cs2 =>
            if isHex h1 && isHex h2 && isHex h3 && isHex h4 then stringRest cs2 else none
          | _ => none
        else if e == 34 || e == 92 || e == 47 || e == 98 || e == 102 || e == 110 || e == 114
            || e == 116 then stringRest cs1
        else none
    else if c < 32 then none
    else stringRest cs

/-- What follows the exponent of a number, if there is one. -/
def exponentRest : List Nat → Option (List Nat)
  | [] => some []
  | c :: cs =>
    if c == 101 || c == 69 then
      match (match cs with
        | s :: cs1 => if s == 43 || s == 45 then cs1 else cs
        | [] => []) with
      | d :: cs2 => if isDigit d then some (skipDigits cs2) else none
      | [] => none
    else some (c :: cs)

/-- What follows the fraction and the exponent of a number. -/
def fractionRest : List Nat → Option (List Nat)
  | 46 :: d :: cs => if isDigit d then exponentRest (skipDigits cs) else none
  | 46 :: [] => none
  | cs => exponentRest cs

/-- What follows a JSON number. -/
def numberRest (cs : List Nat) : Option (List Nat) :=
  match (match cs with
    | 45 :: cs1 => cs1
    | _ => cs) with
  | [] => none
  | d :: cs2 =>
    if d == 48 then fractionRest cs2
    else if isDigit d then fractionRest (skipDigits cs2)
    else none

/-- What follows the literal `lit`, when the text starts with it. -/
def literalRest (lit cs : List Nat) : Option (List Nat) :=
  if lit.isPrefixOf cs then some (cs.drop lit.length) else none

/-- What the reader is to read next. -/
inductive Goal where
  /-- One JSON value. -/
  | value
  /-- The members of an object, after the opening brace or a comma, up to the
  closing brace. -/
  | members
  /-- The items of an array, after the opening bracket or a comma, up to the
  closing bracket. -/
  | items

/-- What follows the goal in the text, `none` when the text does not start
with it. The fuel bounds the nesting and the number of members and items. -/
def jsonRest : Nat → Goal → List Nat → Option (List Nat)
  | 0, _, _ => none
  | fuel + 1, Goal.value, cs =>
    match skipWs cs with
    | [] => none
    | c :: r =>
      if c == 123 then
        match skipWs r with
        | 125 :: r1 => some r1
        | _ => jsonRest fuel Goal.members r
      else if c == 91 then
        match skipWs r with
        | 93 :: r1 => some r1
        | _ => jsonRest fuel Goal.items r
      else if c == 34 then stringRest r
      else if c == 116 then literalRest [116, 114, 117, 101] (c :: r)
      else if c == 102 then literalRest [102, 97, 108, 115, 101] (c :: r)
      else if c == 110 then literalRest [110, 117, 108, 108] (c :: r)
      else numberRest (c :: r)
  | fuel + 1, Goal.members, cs =>
    match skipWs cs with
    | 34 :: r =>
      match stringRest r with
      | none => none
      | some r1 =>
        match skipWs r1 with
        | 58 :: r2 =>
          match jsonRest fuel Goal.value r2 with
          | none => none
          | some r3 =>
            match skipWs r3 with
            | 44 :: r4 => jsonRest fuel Goal.members r4
            | 125 :: r4 => some r4
            | _ => none
        | _ => none
    | _ => none
  | fuel + 1, Goal.items, cs =>
    match jsonRest fuel Goal.value cs with
    | none => none
    | some r1 =>
      match skipWs r1 with
      | 44 :: r2 => jsonRest fuel Goal.items r2
      | 93 :: r2 => some r2
      | _ => none

/-- The text is one well-formed JSON value, with whitespace around it at
most. -/
def jsonValid (s : String) : Bool :=
  match jsonRest (s.length + 1) Goal.value (s.data.map Char.toNat) with
  | some r => (skipWs r).isEmpty
  | none => false

/-- The free-form client frame `{"text":"say \"hi\""}`: the text is
`say "hi"`. -/
def sayHiFrame : ClientFrame :=
  freeFormFrame "say \"hi\""

/-- The structured client frame `{"type":"text","content":"say \"hi\""}`. -/
def sayHiTextFrame : ClientFrame :=
  ClientFrame.text (some (JSON.obj [("type", JSON.str "text"),
    ("content", JSON.str "say \"hi\"")]))

/-! ## More concrete frames -/

/-- The structured client frame `{"type":"audio_end"}`. -/
def audioEndFrame : ClientFrame :=
  ClientFrame.text (some (JSON.obj [("type", JSON.str "audio_end")]))

/-- The structured client frame `{"type":"audio","content":"UklGRg=="}`. -/
def audioChunkFrame : ClientFrame :=
  ClientFrame.text (some (JSON.obj [("type", JSON.str "audio"), ("content", JSON.str "UklGRg==")]))

/-- A backend frame with the setup-acknowledgment marker and a tool call of
`get_weather`. -/
def setupWithToolCallFrame : BackendFrame :=
  toolCallFrame
    "\x7b\"setupComplete\": \x7b\x7d, \"toolCall\": \x7b\"functionCalls\": [\x7b\"name\": \"get_weather\", \"args\": \x7b\"latitude\": \"-7.7325\", \"longitude\": \"110.4024\"\x7d\x7d]\x7d\x7d"
    [⟨"get_weather", [("latitude", JSON.str "-7.7325"), ("longitude", JSON.str "110.4024")]⟩]

/-- A backend frame that decodes to the zero `VertexAIMessage`: no tool call,
`turn_complete` false, no parts, `generationComplete` false. -/
def bareFrame (raw : String) : BackendFrame :=
  { raw := raw, decoded := .ok ⟨⟨false, []⟩, none, false⟩ }

/-- The backend frame `{"setupComplete": {}}`. -/
def spacedSetupFrame : BackendFrame :=
  bareFrame "\x7b\"setupComplete\": \x7b\x7d\x7d"

/-- The backend frame `{"setupComplete":{}}`, without the space. -/
def compactSetupFrame : BackendFrame :=
  bareFrame "\x7b\"setupComplete\":\x7b\x7d\x7d"

/-- A backend frame that is not JSON. -/
def brokenFrame : BackendFrame :=
  { raw := "\x7b\"server_content\":", decoded := .error "unexpected end of JSON input" }

/-- A tool-call frame with two invocations: `get_weather` with coordinates,
then `get_weather` with a city. -/
def twoCallsFrame : BackendFrame :=
  toolCallFrame
    "\x7b\"toolCall\":\x7b\"functionCalls\":[\x7b\"name\":\"get_weather\",\"args\":\x7b\"latitude\":\"-7.7325\",\"longitude\":\"110.4024\"\x7d\x7d,\x7b\"name\":\"get_weather\",\"args\":\x7b\"city\":\"Sleman\"\x7d\x7d]\x7d\x7d"
    [⟨"get_weather", [("latitude", JSON.str "-7.7325"), ("longitude", JSON.str "110.4024")]⟩,
     ⟨"get_weather", [("city", JSON.str "Sleman")]⟩]

/-! ## Upstream Connector: `setupVertexAI` -/

/-- A connection of one session: the client's or the one to the backend. -/
inductive Conn where
  | client
  | backend
deriving DecidableEq

/-- A key of `activeConnections`: a connection or a name. -/
inductive Key where
  | conn (c : Conn)
  | name (s : String)
deriving DecidableEq

/-- One action of the session code, in the order of execution. -/
inductive Action where
  /-- A `ReadMessage` on the connection has returned. -/
  | read (c : Conn)
  /-- An effect of a relay or of the connector. -/
  | effect (e : Effect)
  /-- `Close()` on the connection. -/
  | close (c : Conn)
  /-- `activeConnections.Store(k, true)`. -/
  | store (k : Key)
  /-- `activeConnections.Delete(k)`. -/
  | delete (k : Key)

/-- What the connector asks of the outside world. -/
structure Upstream where
  /-- `getAccessToken()`: the token or the error. -/
  getAccessToken : Except String String
  /-- `dialer.Dial(SERVICE_URL, headers)` with the bearer token: the error, if
  there is one. -/
  Dial : String → Option String
  /-- The verb `%q` of `fmt.Sprintf`. -/
  Quote : String → String

/-- The system instruction up to the latitude. -/
def systemInstructionHead : String :=
  "As Travel Buddy AI from Telkomsel, I answer travel-related questions b" ++
    "ased on provided videos or location, prioritizing accuracy and concise" ++
    "ness. I will retrieve data from Google Maps for location name, address" ++
    ", reviews, ratings, distance, the Google Maps link, and the profile pi" ++
    "cture of the reviewer.\n" ++
    "\t\n" ++
    "\tGuidelines:\n" ++
    "\t\n" ++
    "\t- Identify user location based on latitude: "

/-- The system instruction after the longitude. -/
def systemInstructionTail : String :=
  ".\n" ++
    "\t- Focus on Google Maps data if the user's question pertains to a plac" ++
    "e or location.\n" ++
    "\t- Focus on information within the video if the user's question concer" ++
    "ns objects in the video.\n" ++
    "\t- Use the city name as the smallest scope if the user asks about near" ++
    "by locations.\n" ++
    "\t- Provide suggestions for locations or venues (e.g., food, drinks, co" ++
    "ffee, hangout spots, malls, etc.) if the user mentions them.\n" ++
    "\t- Suggest locations based on ratings, reviews, historical significanc" ++
    "e, and proximity.\n" ++
    "\t- Detect the source language (audio or text) and respond to the user " ++
    "in the same language.\n" ++
    "\t- Display the distance in kilometers (km) from the user's location to" ++
    " each suggested location.\n" ++
    "\t- Offer currency conversion to assist foreign tourists.\n" ++
    "\t- Provide current weather information or a weather forecast if user a" ++
    "sks. I have access to real-time weather data from OpenWeatherMap API. " ++
    "If the user doesn't specify a location, I'll use their current locatio" ++
    "n coordinates.\n" ++
    "\t- For each location suggestion, include its corresponding Google Maps" ++
    " link.\n" ++
    "\t- For the provided review of each location, include the URL of the pr" ++
    "ofile picture of the user who wrote that review (if available).\n" ++
    "\t\n" ++
    "\tFor inquiries regarding Halal status, the analysis will be based on v" ++
    "isual cues (halal logos, ingredients visible in the menu/food images)." ++
    " Information regarding the presence of non-halal ingredients in the me" ++
    "nu will be provided if detected.\n" ++
    "\t\n" ++
    "\tAnswer format in JSON:\n" ++
    "\t\x7b\n" ++
    "\t    \"response\": \"your response text\",\n" ++
    "\t    \"transcript\": \"audio transcription from the video (if available)\"" ++
    ",\n" ++
    "\t    \"locations\": [\n" ++
    "\t        \x7b\n" ++
    "\t            \"name\": \"location name\",\n" ++
    "\t            \"rating\": \"location rating on Google Maps\",\n" ++
    "\t            \"total_user_rating\": \"number of reviews on Google Maps\",\n" ++
    "\t            \"address\": \"location address on Google Maps\",\n" ++
    "\t            \"distance\": \"distance from user (km)\",\n" ++
    "\t            \"review\": \"one review from Google Maps\",\n" ++
    "\t            \"pp_reviewer\": \"URL of the profile picture of the reviewe" ++
    "r (if available)\",\n" ++
    "\t            \"gmap_link\": \"Google Maps link to the location\"\n" ++
    "\t        \x7d\n" ++
    "\t    ],\n" ++
    "\t    \"weather\": \x7b\n" ++
    "\t        \"current\": \"current weather conditions\",\n" ++
    "\t        \"temperature\": \"temperature in Celsius\",\n" ++
    "\t        \"humidity\": \"humidity percentage\",\n" ++
    "\t        \"wind\": \"wind speed and direction\",\n" ++
    "\t        \"description\": \"weather description\"\n" ++
    "\t    \x7d\n" ++
    "\t\x7d\n" ++
    "\t"

/-- The `fmt.Sprintf` of the system instruction with its two arguments. -/
def systemInstruction (latitude longitude : String) : String :=
  systemInstructionHead ++ latitude ++ " and longitude: " ++ longitude ++ systemInstructionTail

/-- The setup message up to the system instruction. -/
def setupPayloadHead : String :=
  "\x7b\n" ++
    "\t\t\"setup\": \x7b\n" ++
    "\t\t\t\"model\": \"projects/our-service-454404-j3/locations/us-central1/publ" ++
    "ishers/google/models/gemini-2.0-flash-exp\",\n" ++
    "\t\t\t\"generationConfig\": \x7b\n" ++
    "\t\t\t\t\"responseModalities\": [\"TEXT\"],\n" ++
    "\t\t\t\t\"temperature\": 0.7,\n" ++
    "\t\t\t\t\"topP\": 0.95,\n" ++
    "\t\t\t\t\"topK\": 40\n" ++
    "\t\t\t\x7d,\n" ++
    "\t\t\t\"tools\": [\n" ++
    "\t\t\t\t\x7b\n" ++
    "\t\t\t\t\t\"functionDeclarations\": [\n" ++
    "\t\t\t\t\t\t\x7b\n" ++
    "\t\t\t\t\t\t\t\"name\": \"get_weather\",\n" ++
    "\t\t\t\t\t\t\t\"description\": \"Get weather information based on latitude and l" ++
    "ongitude.\",\n" ++
    "\t\t\t\t\t\t\t\"parameters\": \x7b\n" ++
    "\t\t\t\t\t\t\t\t\"type\": \"object\",\n" ++
    "\t\t\t\t\t\t\t\t\"properties\": \x7b\n" ++
    "\t\t\t\t\t\t\t\t\t\"latitude\": \x7b\n" ++
    "\t\t\t\t\t\t\t\t\t\t\"type\": \"string\",\n" ++
    "\t\t\t\t\t\t\t\t\t\t\"description\": \"Latitude lokasi user\"\n" ++
    "\t\t\t\t\t\t\t\t\t\x7d,\n" ++
    "\t\t\t\t\t\t\t\t\t\"longitude\": \x7b\n" ++
    "\t\t\t\t\t\t\t\t\t\t\"type\": \"string\",\n" ++
    "\t\t\t\t\t\t\t\t\t\t\"description\": \"Longitude lokasi user\"\n" ++
    "\t\t\t\t\t\t\t\t\t\x7d\n" ++
    "\t\t\t\t\t\t\t\t\x7d,\n" ++
    "\t\t\t\t\t\t\t\t\"required\": [\"latitude\", \"longitude\"]\n" ++
    "\t\t\t\t\t\t\t\x7d\n" ++
    "\t\t\t\t\t\t\x7d\n" ++
    "\t\t\t\t\t]\n" ++
    "\t\t\t\t\x7d\n" ++
    "\t\t\t],\n" ++
    "\t\t\t\"system_instruction\": \x7b\n" ++
    "\t\t\t\t\"role\": \"system\",\n" ++
    "\t\t\t\t\"parts\": [\x7b\n" ++
    "\t\t\t\t\t\"text\": "

/-- The setup message after the system instruction. -/
def setupPayloadTail : String :=
  "\n" ++
    "\t\t\t\t\x7d]\n" ++
    "\t\t\t\x7d\n" ++
    "\t\t\x7d\n" ++
    "\t\x7d"

/-- The handshake message: the `fmt.Sprintf` of `setupPayloadVertex`. -/
def setupPayloadVertex (up : Upstream) (instruction : String) : String :=
  setupPayloadHead ++ up.Quote instruction ++ setupPayloadTail

/-- Go `setupVertexAI`: the actions on the new backend connection, and the
error when no connection comes out of it. The local `latitude` and the local
`longitude` are both read from `userLatitude`; the error of the handshake
write is dropped. -/
def setupVertexAI (up : Upstream) (loc : Location) : List Action × Except String Unit :=
  match up.getAccessToken with
  | .error err => ([], .error ("Error getting access token: " ++ err))
  | .ok token =>
    match up.Dial token with
    | some err => ([], .error ("Error connecting to Vertex AI WebSocket: " ++ err))
    | none =>
      let latitude := loc.userLatitude
      let longitude := loc.userLatitude
      ([Action.effect (Effect.backend (Payload.text
        (setupPayloadVertex up (systemInstruction latitude longitude))))], .ok ())

/-! ## Session Manager: `handleClient` and the two relay functions

A relay function is given by the frames its reads return before the read that
fails, and by the error of that read; its trace is the list of its actions up
to its return. -/

/-- The registry `activeConnections`: the keys it holds. -/
abbrev Registry := List Key

/-- The effect of one action on the registry. -/
def applyAction (reg : Registry) : Action → Registry
  | Action.store k => if k ∈ reg then reg else k :: reg
  | Action.delete k => reg.filter (fun k' => k' ≠ k)
  | _ => reg

/-- The registry after the actions of a trace. -/
def registryAfter (reg : Registry) (trace : List Action) : Registry :=
  trace.foldl applyAction reg

/-- The action is a `Close()` of this connection. -/
def isClose (c : Conn) : Action → Bool
  | Action.close c' => c' = c
  | _ => false

/-- The action is the return of a read of this connection. -/
def isRead (c : Conn) : Action → Bool
  | Action.read c' => c' = c
  | _ => false

/-- How many times the trace closes the connection. -/
def closes (c : Conn) (trace : List Action) : Nat :=
  trace.countP (isClose c)

/-- The messages a trace writes on the backend connection, in order. -/
def backendFrames (trace : List Action) : List Payload :=
  trace.filterMap (fun a => match a with
    | Action.effect (Effect.backend p) => some p
    | _ => none)

/-- What follows the first read of the connection in the trace. -/
def afterFirstRead (c : Conn) : List Action → List Action
  | [] => []
  | a :: rest => if isRead c a then rest else afterFirstRead c rest

/-- The `for` loop of `proxyMessagesServer`: the frames that are read, each
with the LocationState of the moment, then the read that fails with `err` (its
branch does not look at the LocationState). -/
def serverLoop (env : Env) : String → List (Location × BackendFrame) → String → List Action
  | partMessage, [], err =>
    [Action.read Conn.backend] ++
      (serverIter env initialLocation partMessage (.error err)).effects.map Action.effect ++
      [Action.delete (Key.conn Conn.client)]
  | partMessage, lf :: rest, err =>
    [Action.read Conn.backend] ++
      (serverFrame env lf.1 partMessage lf.2).effects.map Action.effect ++
      serverLoop env (serverFrame env lf.1 partMessage lf.2).state rest err

/-- Go `proxyMessagesServer` (`src` the backend connection, `dest` the client
connection): the delete of its name and the `src.Close()` before the loop, the
loop, which ends with `activeConnections.Delete(dest)`, and the deferred
`src.Close()`. -/
def proxyMessagesServer (env : Env) (name : String) (frames : List (Location × BackendFrame))
    (err : String) : List Action :=
  [Action.delete (Key.name name), Action.close Conn.backend] ++ serverLoop env "" frames err ++
    [Action.close Conn.backend]

/-- The `for` loop of `proxyMessagesClient`: the frames that are read, then the
read that fails with `err`; the loop ends before that when a write on the
backend connection fails. The result is the LocationState at the end and the
trace. -/
def clientLoop (env : Env) : Location → List ClientFrame → String → Location × List Action
  | loc, [], err => (loc, [Action.read Conn.client] ++
      (clientIter env loc (.error err)).effects.map Action.effect)
  | loc, f :: rest, err =>
    if (clientFrame env loc f).goesOn then
      ((clientLoop env (clientFrame env loc f).state rest err).1,
        [Action.read Conn.client] ++ (clientFrame env loc f).effects.map Action.effect ++
          (clientLoop env (clientFrame env loc f).state rest err).2)
    else
      ((clientFrame env loc f).state,
        [Action.read Conn.client] ++ (clientFrame env loc f).effects.map Action.effect)

/-- Go `proxyMessagesClient` (`src` the client connection, `dest` the backend
connection): the loop and the deferred `src.Close()`. -/
def proxyMessagesClient (env : Env) (loc : Location) (frames : List ClientFrame) (err : String) :
    List Action :=
  (clientLoop env loc frames err).2 ++ [Action.close Conn.client]

/-- The order in which two goroutines run: at each step of the schedule the
first one (`true`) or the second one (`false`) takes its next action; a
goroutine that has returned leaves the rest to the other. -/
def merge : List Bool → List Action → List Action → List Action
  | _, [], bs => bs
  | _, a :: as, [] => a :: as
  | [], a :: as, b :: bs => (a :: as) ++ (b :: bs)
  | true :: s, a :: as, b :: bs => a :: merge s as (b :: bs)
  | false :: s, a :: as, b :: bs => b :: merge s (a :: as) bs

/-- What one session gets from outside: the order of the two relay goroutines
and what their reads return. -/
structure Session where
  schedule : List Bool
  clientFrames : List ClientFrame
  clientErr : String
  serverFrames : List (Location × BackendFrame)
  serverErr : String

/-- Go `handleClient`, for a session whose two relay functions return: the
connector; on its error the close of the client connection; otherwise the
store in the registry, the two relay goroutines, and after `wg.Wait()` the
delete from the registry and the deferred `serverConn.Close()`. -/
def handleClient (up : Upstream) (env : Env) (loc : Location) (s : Session) : List Action :=
  match setupVertexAI up loc with
  | (acts, .error _) => acts ++ [Action.close Conn.client]
  | (acts, .ok _) =>
    acts ++ [Action.store (Key.conn Conn.client)] ++
      merge s.schedule (proxyMessagesClient env loc s.clientFrames s.clientErr)
        (proxyMessagesServer env "Server->Client" s.serverFrames s.serverErr) ++
      [Action.delete (Key.conn Conn.client), Action.close Conn.backend]

/-- Go `strconv.Quote` on texts of printable ASCII, line feeds and tabs. -/
def asciiQuote (s : String) : String :=
  "\"" ++ concatTexts (s.data.map (fun c =>
    if c.toNat = 34 then "\\\"" else if c.toNat = 92 then "\\\\"
    else if c.toNat = 10 then "\\n" else if c.toNat = 9 then "\\t" else ⟨[c]⟩)) ++ "\""

/-- A connector for which the token is there and the dial succeeds. -/
def okUpstream : Upstream :=
  { getAccessToken := .ok "ya29.token", Dial := fun _ => none, Quote := asciiQuote }

/-- A connector whose credential retrieval fails. -/
def noTokenUpstream : Upstream :=
  { getAccessToken := .error "error opening key file", Dial := fun _ => none,
    Quote := asciiQuote }

/-- A session in which the first read of the client connection fails while
the backend still sends a tool call of `get_weather`; the Downstream Relay
runs first. -/
def clientDropsSession : Session :=
  { schedule := [true, true, true], clientFrames := [],
    clientErr := "websocket: close 1006", serverFrames := [(initialLocation, weatherCallFrame)],
    serverErr := "use of closed network connection" }

/-- A session in which both first reads fail. -/
def shortSession : Session :=
  { schedule := [false, true], clientFrames := [],
    clientErr := "websocket: close 1001", serverFrames := [],
    serverErr := "use of closed network connection" }

/-- A session in which the client is gone: the first read of the client
connection fails before the Upstream Relay has taken a step, and the backend
sends nothing before its own read fails. -/
def clientGoneSession : Session :=
  { schedule := [true, true, true], clientFrames := [],
    clientErr := "websocket: close 1006", serverFrames := [],
    serverErr := "use of closed network connection" }

/-! ## Vocabulary of the properties of the Tool Executor and of the session -/

/-- The error text of `get_weather` for arguments it cannot use. -/
def invalidWeatherArgsMsg : String :=
  "invalid or missing 'latitude'/'longitude' or 'city' parameter in get_weather call"

/-- The argument map has no string `city` and does not have both `latitude`
and `longitude` as strings. -/
def invalidWeatherArgs (params : List (String × JSON)) : Bool :=
  (asString (mapIndex params "city")).isNone &&
    !((asString (mapIndex params "latitude")).isSome &&
      (asString (mapIndex params "longitude")).isSome)

/-- The messages a trace writes on the client connection, in order. -/
def clientFramesOf (trace : List Action) : List Payload :=
  trace.filterMap (fun a => match a with
    | Action.effect (Effect.client p) => some p
    | _ => none)

/-- A provider answer with status 401 and the body of OpenWeatherMap for a
wrong key. -/
def unauthorizedResponse : Except String HttpResponse :=
  .ok { StatusCode := 401, Body := "\x7b\"cod\":401,\"message\":\"Invalid API key.\"\x7d",
        ReadErr := none }

/-- A connector whose dial fails. -/
def noDialUpstream : Upstream :=
  { getAccessToken := .ok "ya29.token", Dial := fun _ => some "dial tcp: i/o timeout",
    Quote := asciiQuote }

namespace Vertex

/-! ## The provider functions of `funtion-calling-vertex/main.go` -/

/-- An HTTP request of a provider function. -/
structure Request where
  Method : String
  URL : String
  Body : String
  Header : List (String × String)

/-- What the provider functions ask of the outside world. -/
structure World where
  /-- `os.Getenv`. -/
  Getenv : String → String
  /-- `http.NewRequest(method, url, body)`: the error, if there is one. -/
  NewRequest : String → String → Option String
  /-- `client.Do(req)`: the response or the transport error. -/
  Do : Request → Except String HttpResponse
  /-- `url.QueryEscape`, which `url.Values.Encode` applies to keys and values. -/
  QueryEscape : String → String
  /-- `json.Unmarshal(body, &result)` for `result` a `map[string]any`. -/
  Unmarshal : String → Except String (List (String × JSON))
  /-- `json.Marshal` of a string value. -/
  MarshalString : String → String

/-- How a call of a provider function ends: it returns its pair of results, or
it panics. -/
inductive Ret where
  | returns (r : Except String FunctionResponse)
  | panics (err : String)

/-- Go `getOpenWeatherMapAPIKey`. -/
def getOpenWeatherMapAPIKey (w : World) : String :=
  if w.Getenv "OPEN_WEATHER_API_KEY" = "" then "" else w.Getenv "OPEN_WEATHER_API_KEY"

/-- Go `getGooglePlacesAPIKey`. -/
def getGooglePlacesAPIKey (w : World) : String :=
  if w.Getenv "GOOGLE_PLACE_API_KEY" = "" then "" else w.Getenv "GOOGLE_PLACE_API_KEY"

/-- The common end of the three provider functions: the request is made, the
body is read and decoded (a failure of either is a panic), and the decoded
object is returned under the name `name`. -/
def fetchInto (w : World) (req : Request) (name : String) : Ret :=
  match w.NewRequest req.Method req.URL with
  | some err => Ret.returns (.error ("error membuat request: " ++ err))
  | none =>
    match w.Do req with
    | .error err => Ret.returns (.error ("error mengirim request: " ++ err))
    | .ok res =>
      match res.ReadErr with
      | some err => Ret.panics err
      | none =>
        match w.Unmarshal res.Body with
        | .error err => Ret.panics err
        | .ok result => Ret.returns (.ok { Name := name, Response := result })

/-- Go `GetWeatherDataByLatLong`. -/
def GetWeatherDataByLatLong (w : World) (lat lon : String) : Ret :=
  if getOpenWeatherMapAPIKey w = "" then
    Ret.returns (.error "API key untuk OpenWeatherMap tidak tersedia")
  else
    fetchInto w
      { Method := "GET",
        URL := "https://api.openweathermap.org/data/2.5/weather?lat=" ++ lat ++ "&lon=" ++ lon
          ++ "&units=metric&appid=" ++ getOpenWeatherMapAPIKey w,
        Body := "", Header := [] }
      "getCurrentWeather"

/-- Go `GetWeatherDataByCity`: `params.Encode()` puts the keys in order. -/
def GetWeatherDataByCity (w : World) (city : String) : Ret :=
  if getOpenWeatherMapAPIKey w = "" then
    Ret.returns (.error "API key untuk OpenWeatherMap tidak tersedia")
  else
    fetchInto w
      { Method := "GET",
        URL := "https://api.openweathermap.org/data/2.5/weather?" ++
          (w.QueryEscape "appid" ++ "=" ++ w.QueryEscape (getOpenWeatherMapAPIKey w) ++ "&" ++
           w.QueryEscape "q" ++ "=" ++ w.QueryEscape city ++ "&" ++
           w.QueryEscape "units" ++ "=" ++ w.QueryEscape "metric"),
        Body := "", Header := [] }
      "getPlaceRecommendation"

/-- Go `GetPlaceRecommendation`. -/
def GetPlaceRecommendation (w : World) (query : String) : Ret :=
  if getGooglePlacesAPIKey w = "" then
    Ret.returns (.error "API key untuk Google Places tidak tersedia")
  else
    fetchInto w
      { Method := "POST",
        URL := "https://places.googleapis.com/v1/places:searchText",
        Body := "\x7b\"textQuery\":" ++ w.MarshalString query ++ "\x7d",
        Header := [("Content-Type", "application/json"),
          ("X-Goog-Api-Key", getGooglePlacesAPIKey w),
          ("X-Goog-FieldMask", "places.displayName,places.formattedAddress,places.priceLevel")] }
      "getCurrentWeather"

/-! ## The function-calling loop of `generateWithFuncCall` -/

/-- The names of the function declarations of the tool configuration:
`weatherFunc`, `placeFunc`, `exchangeRateFunc`, `googleSearchFunc`. -/
def declaredFunctions : List String :=
  ["getCurrentWeather", "getPlaceRecommendation", "getExchangeRate", "googleSearch"]

/-- `maxIterations`. -/
def maxIterations : Nat := 3

/-- One part of the answer of the model: a function call, or else its text. -/
inductive AnswerPart where
  | call (funcCall : FunctionCall)
  | text (t : String)

/-- What `client.Models.GenerateContent` returns: an error, or the parts of
the first candidate (none when there is no candidate, no content or no
part). -/
inductive Answer where
  | failed (err : String)
  | parts (ps : List AnswerPart)

/-- One entry of the conversation `contents`. -/
inductive Content where
  | user (text : String)
  | modelCall (funcCall : FunctionCall)
  | function (funcResp : FunctionResponse)

/-- The loop over the parts of an answer: the first function call ends it;
before that the non-empty texts are appended to `textResponse`. -/
def scanParts : List AnswerPart → String → Option FunctionCall × String
  | [], textResponse => (none, textResponse)
  | AnswerPart.call funcCall :: _, textResponse => (some funcCall, textResponse)
  | AnswerPart.text t :: rest, textResponse =>
    scanParts rest (if t ≠ "" then textResponse ++ t else textResponse)

/-- The variables of the loop, and the provider calls made so far. -/
structure LoopState where
  contents : List Content
  finalResponse : String
  iteration : Nat
  needsAnotherIteration : Bool
  calls : List ProviderCall

/-- The provider functions as the switch calls them: a call returns its pair
of results, or it panics. -/
structure Functions where
  GetWeatherDataByLatLong : String → String → Ret
  GetWeatherDataByCity : String → Ret
  GetPlaceRecommendation : String → Ret
  GetExchangeRate : String → String → Ret

/-- The provider functions of the program in the world `w`. `GetExchangeRate`
has no `panic` (a body that cannot be read or decoded makes it return an
error): it is given by what it returns. -/
def functionsOf (w : World)
    (GetExchangeRate : String → String → Except String FunctionResponse) : Functions :=
  { GetWeatherDataByLatLong := GetWeatherDataByLatLong w,
    GetWeatherDataByCity := GetWeatherDataByCity w,
    GetPlaceRecommendation := GetPlaceRecommendation w,
    GetExchangeRate := fun dari ke => Ret.returns (GetExchangeRate dari ke) }

/-- Provider functions that never panic and return what `P` gives. -/
def returning (P : Providers) : Functions :=
  { GetWeatherDataByLatLong := fun lat lon => Ret.returns (P.GetWeatherDataByLatLong lat lon),
    GetWeatherDataByCity := fun city => Ret.returns (P.GetWeatherDataByCity city),
    GetPlaceRecommendation := fun query => Ret.returns (P.GetPlaceRecommendation query),
    GetExchangeRate := fun dari ke => Ret.returns (P.GetExchangeRate dari ke) }

/-- The `switch funcCall.Name` of `generateWithFuncCall` on provider functions
that may panic: the provider calls it makes, and the pair `funcResp`, `callErr`
it leaves, or the panic of the provider function, which nothing recovers. -/
def execute (F : Functions) (funcCall : FunctionCall) : List ProviderCall × Ret :=
  if funcCall.Name = "getCurrentWeather" then
    match asString (mapIndex funcCall.Args "latitude") with
    | some lat =>
      match asString (mapIndex funcCall.Args "longitude") with
      | some lon => ([ProviderCall.GetWeatherDataByLatLong lat lon], F.GetWeatherDataByLatLong lat lon)
      | none => ([], Ret.returns (.error
          "invalid function call arguments for getCurrentWeather: 'longitude' missing or not a string"))
    | none =>
      match asString (mapIndex funcCall.Args "city") with
      | some city => ([ProviderCall.GetWeatherDataByCity city], F.GetWeatherDataByCity city)
      | none => ([], Ret.returns (.error
          "invalid function call arguments for getCurrentWeather: requires either (latitude, longitude) or city"))
  else if funcCall.Name = "getPlaceRecommendation" then
    match asString (mapIndex funcCall.Args "query") with
    | some query => ([ProviderCall.GetPlaceRecommendation query], F.GetPlaceRecommendation query)
    | none => ([], Ret.returns (.error
        "invalid function call arguments for getPlaceRecommendation: 'query' missing or not a string"))
  else if funcCall.Name = "getExchangeRate" then
    match asString (mapIndex funcCall.Args "from"), asString (mapIndex funcCall.Args "to") with
    | some dari, some ke => ([ProviderCall.GetExchangeRate dari ke], F.GetExchangeRate dari ke)
    | _, _ => ([], Ret.returns (.error
        "invalid function call arguments for getExchangeRate: requires 'from' and 'to' strings"))
  else
    ([], Ret.returns (.error ("unknown function call: " ++ funcCall.Name)))

/-- How one iteration ends: the function returns an error, the loop is left
with `break`, a provider function panics, or the body is run to its end. -/
inductive StepEnd where
  | failed (err : String) (st : LoopState)
  | broke (st : LoopState)
  | panicked (err : String) (st : LoopState)
  | next (st : LoopState)

/-- The user turn that follows a function response. -/
def followUp (iteration : Nat) : String :=
  if iteration = 1 then
    "Terima kasih atas informasi tersebut. Apakah ada bagian lain dari pertanyaan saya yang belum terjawab? Jika ya, tolong jawab bagian tersebut."
  else
    "Terima kasih. Sekarang berikan saya ringkasan lengkap dari semua informasi yang telah Anda kumpulkan."

/-- The body of the loop: `model` is the answer of the model to the request
number `iteration` with the conversation `contents`. A panic of the provider
function leaves the body before anything is appended to `contents`. -/
def step (F : Functions) (model : Nat → List Content → Answer) (st : LoopState) : StepEnd :=
  let iteration := st.iteration + 1
  match model iteration st.contents with
  | Answer.failed err =>
    StepEnd.failed ("failed to generate content (iterasi #" ++ toString iteration ++ "): " ++ err)
      { st with iteration := iteration }
  | Answer.parts [] => StepEnd.broke { st with iteration := iteration }
  | Answer.parts (p :: ps) =>
    match scanParts (p :: ps) "" with
    | (none, textResponse) =>
      StepEnd.next { st with
        iteration := iteration,
        finalResponse :=
          if textResponse ≠ "" then st.finalResponse ++ textResponse ++ "\n\n"
          else st.finalResponse,
        needsAnotherIteration := false }
    | (some funcCall, _) =>
      match execute F funcCall with
      | (calls, Ret.panics err) =>
        StepEnd.panicked err { st with iteration := iteration, calls := st.calls ++ calls }
      | (calls, Ret.returns r) =>
        StepEnd.next { st with
          iteration := iteration,
          contents := st.contents ++
            [Content.modelCall funcCall,
             Content.function (functionResult funcCall r),
             Content.user (followUp iteration)],
          needsAnotherIteration := if iteration = 1 then st.needsAnotherIteration else false,
          calls := st.calls ++ calls }

/-- How the loop ends: the state, the error when the function returns one,
and the panic when a provider function panicked. -/
structure LoopEnd where
  state : LoopState
  error : Option String
  panic : Option String

/-- The loop `for needsAnotherIteration && iteration < maxIterations`, run
for at most `fuel` iterations. -/
def loop (F : Functions) (model : Nat → List Content → Answer) : Nat → LoopState → LoopEnd
  | 0, st => { state := st, error := none, panic := none }
  | fuel + 1, st =>
    if st.needsAnotherIteration && decide (st.iteration < maxIterations) then
      match step F model st with
      | StepEnd.failed err st' => { state := st', error := some err, panic := none }
      | StepEnd.broke st' => { state := st', error := none, panic := none }
      | StepEnd.panicked err st' => { state := st', error := none, panic := some err }
      | StepEnd.next st' => loop F model fuel st'
    else { state := st, error := none, panic := none }

/-- The variables before the loop of `generateWithFuncCall(question)`. -/
def initialState (question : String) : LoopState :=
  { contents := [Content.user question], finalResponse := "", iteration := 0,
    needsAnotherIteration := true, calls := [] }

/-- The function responses of a conversation, in order. -/
def functionResponses (contents : List Content) : List FunctionResponse :=
  contents.filterMap (fun c => match c with
    | Content.function funcResp => some funcResp
    | _ => none)

/-- A world in which the keys are set and every request is answered with
status 200 and the body `body`, which decodes to `result`. -/
def answeringWorld (body : String) (result : List (String × JSON)) : World :=
  { Getenv := fun _ => "key", NewRequest := fun _ _ => none,
    Do := fun _ => .ok { StatusCode := 200, Body := body, ReadErr := none },
    QueryEscape := fun s => s, Unmarshal := fun _ => .ok result,
    MarshalString := asciiQuote }

/-- A model that asks for the weather of Sleman by city at every request. -/
def weatherAsker : Nat → List Content → Answer :=
  fun _ _ => Answer.parts [AnswerPart.call ⟨"getCurrentWeather", [("city", JSON.str "Sleman")]⟩]

/-- A world in which the keys are set and every request is answered with
status 502 and an HTML page, which `json.Unmarshal` rejects. -/
def badGatewayWorld : World :=
  { Getenv := fun _ => "key", NewRequest := fun _ _ => none,
    Do := fun _ => .ok { StatusCode := 502, Body := "<html>502 Bad Gateway</html>",
                         ReadErr := none },
    QueryEscape := fun s => s,
    Unmarshal := fun _ => .error "invalid character '<' looking for beginning of value",
    MarshalString := asciiQuote }

/-- A world in which the keys are set and no request gets through. -/
def noNetworkWorld : World :=
  { Getenv := fun _ => "key", NewRequest := fun _ _ => none,
    Do := fun _ => .error "dial tcp: i/o timeout",
    QueryEscape := fun s => s, Unmarshal := fun _ => .error "unexpected end of JSON input",
    MarshalString := asciiQuote }

/-- An exchange-rate provider that is not reached. -/
def noRate : String → String → Except String FunctionResponse :=
  fun _ _ => .error "error mengirim request: dial tcp: i/o timeout"

end Vertex

/-- The decoded weather report of `cerahBody`. -/
def cerahObject : List (String × JSON) :=
  [("weather", JSON.arr [JSON.obj [("description", JSON.str "cerah")]]),
   ("main", JSON.obj [("temp", JSON.num "29.5")])]

namespace Currency

/-! ## The query parser of `action item/currency.go`

`regexp` is embedded as a backtracking matcher: Go's `regexp` returns the
match a backtracking search finds first (leftmost, and among those the one the
order of the alternatives prefers: a greedy repetition tries one more round
first, a lazy one tries to stop first). -/

/-- The regular expressions that `parseQuery` needs. -/
inductive Regex where
  /-- The empty expression. -/
  | eps
  /-- One character of a class. -/
  | set (p : Char → Bool)
  /-- `ab`. -/
  | seq (a b : Regex)
  /-- `a?`. -/
  | opt (a : Regex)
  /-- `a+`. -/
  | plus (a : Regex)
  /-- `a*`. -/
  | star (a : Regex)
  /-- `a+?`. -/
  | lazyPlus (a : Regex)
  /-- `(a)`, the capturing group number `i`. -/
  | group (i : Nat) (a : Regex)

/-- The text of the groups that have taken part in a match so far, the latest
first. -/
abbrev Caps := List (Nat × List Char)

/-- The outcome of a search: the fuel ran out, there is no match, or there is
one, with the text after it and the groups. -/
inductive Res where
  | fuelOut
  | noMatch
  | matched (rest : List Char) (caps : Caps)

/-- The backtracking matcher: `k` is what is to be matched after `re`. A
repetition goes on only after a round that has consumed a character. -/
def matchRe : Nat → Regex → List Char → Caps → (List Char → Caps → Res) → Res
  | 0, _, _, _, _ => Res.fuelOut
  | _ + 1, Regex.eps, input, caps, k => k input caps
  | _ + 1, Regex.set p, input, caps, k =>
    match input with
    | c :: cs => if p c then k cs caps else Res.noMatch
    | [] => Res.noMatch
  | fuel + 1, Regex.seq a b, input, caps, k =>
    matchRe fuel a input caps (fun r c => matchRe fuel b r c k)
  | fuel + 1, Regex.opt a, input, caps, k =>
    match matchRe fuel a input caps k with
    | Res.noMatch => k input caps
    | r => r
  | fuel + 1, Regex.plus a, input, caps, k =>
    matchRe fuel a input caps (fun r c => matchRe fuel (Regex.star a) r c k)
  | fuel + 1, Regex.star a, input, caps, k =>
    match matchRe fuel a input caps (fun r c =>
        if r.length < input.length then matchRe fuel (Regex.star a) r c k else Res.noMatch) with
    | Res.noMatch => k input caps
    | r => r
  | fuel + 1, Regex.lazyPlus a, input, caps, k =>
    matchRe fuel a input caps (fun r c =>
      match k r c with
      | Res.noMatch =>
        if r.length < input.length then matchRe fuel (Regex.lazyPlus a) r c k else Res.noMatch
      | res => res)
  | fuel + 1, Regex.group i a, input, caps, k =>
    matchRe fuel a input caps (fun r c =>
      k r ((i, input.take (input.length - r.length)) :: c))

/-- The leftmost match: the search is started at each position in turn. -/
def findAt (fuel : Nat) (re : Regex) : List Char → Res
  | [] => matchRe fuel re [] [] Res.matched
  | c :: cs =>
    match matchRe fuel re (c :: cs) [] Res.matched with
    | Res.noMatch => findAt fuel re cs
    | r => r

/-- The text of group `i` (empty when the group took no part). -/
def groupText (caps : Caps) (i : Nat) : String :=
  match caps.find? (fun g => g.1 == i) with
  | some g => ⟨g.2⟩
  | none => ""

/-- The class `\d`. -/
def digit : Regex := Regex.set Char.isDigit

/-- The class `\s` of `regexp`: tab, line feed, form feed, carriage return,
space. -/
def space : Regex :=
  Regex.set (fun c => c.toNat = 9 || c.toNat = 10 || c.toNat = 12 || c.toNat = 13 ||
    c.toNat = 32)

/-- The class `.`: any character but the line feed. -/
def anyChar : Regex := Regex.set (fun c => c.toNat ≠ 10)

/-- A literal under the flag `(?i)`, for a literal of lower-case ASCII letters
other than `k` and `s`, and spaces. -/
def literal (s : String) : Regex :=
  s.data.foldr (fun ch re => Regex.seq (Regex.set (fun c => c.toLower = ch)) re) Regex.eps

/-- The expression of `parseQuery`,
`(?i)(\d+(\.\d+)?)\s+(.+?)\s+itu berapa\s+(.+?)\s*ya\??`, as group 0. -/
def queryRegex : Regex :=
  Regex.group 0
    (Regex.seq (Regex.group 1 (Regex.seq (Regex.plus digit)
        (Regex.opt (Regex.group 2 (Regex.seq (Regex.set (fun c => c.toNat = 46))
          (Regex.plus digit))))))
    (Regex.seq (Regex.plus space)
    (Regex.seq (Regex.group 3 (Regex.lazyPlus anyChar))
    (Regex.seq (Regex.plus space)
    (Regex.seq (literal "itu berapa")
    (Regex.seq (Regex.plus space)
    (Regex.seq (Regex.group 4 (Regex.lazyPlus anyChar))
    (Regex.seq (Regex.star space)
    (Regex.seq (literal "ya")
      (Regex.opt (Regex.set (fun c => c.toNat = 63))))))))))))

/-- Go `re.FindStringSubmatch(query)` for `queryRegex`: `none` inside when
there is no match, else the five texts. -/
def FindStringSubmatch (query : String) : Option (Option (List String)) :=
  match findAt (2 * query.length + 64) queryRegex query.data with
  | Res.fuelOut => none
  | Res.noMatch => some none
  | Res.matched _ caps => some (some ((List.range 5).map (groupText caps)))

/-- Go `unicode.IsSpace`. -/
def isSpace (c : Char) : Bool :=
  (decide (9 ≤ c.toNat) && decide (c.toNat ≤ 13)) || c.toNat = 32 || c.toNat = 0x85 ||
    c.toNat = 0xA0 || c.toNat = 0x1680 ||
    (decide (0x2000 ≤ c.toNat) && decide (c.toNat ≤ 0x200a)) || c.toNat = 0x2028 ||
    c.toNat = 0x2029 || c.toNat = 0x202f || c.toNat = 0x205f || c.toNat = 0x3000

/-- The loop of `strings.Fields`: `word` is the field being read. -/
def fieldsFrom : List Char → List Char → List String
  | [], word => if word.isEmpty then [] else [⟨word⟩]
  | c :: cs, word =>
    if isSpace c then
      if word.isEmpty then fieldsFrom cs [] else ⟨word⟩ :: fieldsFrom cs []
    else fieldsFrom cs (word ++ [c])

/-- Go `strings.Fields`. -/
def Fields (s : String) : List String :=
  fieldsFrom s.data []

/-- The library functions the parser calls; `α` is `float64`. -/
structure Lib (α : Type) where
  /-- `strings.ToLower`. -/
  ToLower : String → String
  /-- `strings.ToUpper`. -/
  ToUpper : String → String
  /-- `strconv.ParseFloat(s, 64)`. -/
  ParseFloat : String → Except String α

/-- Go `petaMataUang`. -/
def petaMataUang : List (String × String) :=
  [("rupiah", "IDR"), ("riyal", "SAR"), ("dolar", "USD"), ("euro", "EUR")]

/-- Go `getKodeMataUang`. -/
def getKodeMataUang {α : Type} (lib : Lib α) (nama : String) : String :=
  match petaMataUang.lookup (lib.ToLower nama) with
  | some kode => kode
  | none => lib.ToUpper nama

/-- How a call of `parseQuery` ends: with its results, with its error, or in a
panic of the runtime; `undecided` when the fuel of the matcher ran out. -/
inductive Parsed (α : Type) where
  | ok (dari ke : String) (jumlah : α)
  | error (err : String)
  | panics (msg : String)
  | undecided

/-- Go `parseQuery` (`submatches` is the variable `matches`). The index
`len(bagianAsal)-1` is out of range when `strings.Fields` returns no field. -/
def parseQuery {α : Type} (lib : Lib α) (query : String) : Parsed α :=
  match FindStringSubmatch query with
  | none => Parsed.undecided
  | some none =>
    Parsed.error
      "format query tidak dikenali. Gunakan format seperti '5000 riyal SAR itu berapa rupiah ya?'"
  | some (some submatches) =>
    match lib.ParseFloat (submatches.getD 1 "") with
    | .error err => Parsed.error ("jumlah tidak valid: " ++ err)
    | .ok jumlah =>
      match (Fields (submatches.getD 3 "")).getLast? with
      | none => Parsed.panics "runtime error: index out of range [-1]"
      | some asal =>
        match (Fields (submatches.getD 4 "")).getLast? with
        | none => Parsed.panics "runtime error: index out of range [-1]"
        | some tujuan =>
          if getKodeMataUang lib asal = "" ∨ getKodeMataUang lib tujuan = "" then
            Parsed.error ("tidak dapat menentukan kode mata uang dari '" ++ submatches.getD 3 "" ++
              "' atau '" ++ submatches.getD 4 "" ++ "'")
          else Parsed.ok (getKodeMataUang lib asal) (getKodeMataUang lib tujuan) jumlah

/-- The library on ASCII texts; the amount is kept as its decimal text. -/
def asciiLib : Lib String :=
  { ToLower := fun s => ⟨s.data.map Char.toLower⟩, ToUpper := fun s => ⟨s.data.map Char.toUpper⟩,
    ParseFloat := fun s => .ok s }

end Currency

end Relay

/-! ## Theorems -/

namespace Relay

theorem concatTexts_append (xs ys : List String) :
    concatTexts (xs ++ ys) = concatTexts xs ++ concatTexts ys := by
  induction xs with
  | nil => simp [concatTexts]
  | cons x xs ih => simp [concatTexts, ih, String.append_assoc]

theorem appendParts_eq (acc : String) (parts : List Part) :
    appendParts acc parts = acc ++ concatTexts (parts.map Part.Text) := by
  unfold appendParts
  induction parts generalizing acc with
  | nil => simp [concatTexts]
  | cons p ps ih =>
    simp only [List.foldl_cons, List.map_cons, concatTexts]
    by_cases hp : p.Text = ""
    · rw [if_neg (by simp [hp]), ih, hp]
      simp
    · rw [if_pos hp, ih, String.append_assoc]

theorem serverFrame_content (env : Env) (loc : Location) (acc : String) (f : BackendFrame)
    (h : isContentFrame f = true) :
    serverFrame env loc acc f =
      ⟨acc ++ frameText f, [Effect.client (streamingMsg (acc ++ frameText f))], true⟩ := by
  unfold isContentFrame at h
  unfold serverFrame frameText
  cases hd : f.decoded with
  | error e => simp [hd] at h
  | ok m =>
    simp only [hd, Bool.and_eq_true, Option.isNone_iff_eq_none, Bool.not_eq_true',
      List.isEmpty_eq_true] at h
    obtain ⟨⟨⟨h1, h2⟩, h3⟩, h4⟩ := h
    have h5 : m.ServerContent.Parts.length > 0 := by
      cases hp : m.ServerContent.Parts with
      | nil => simp [hp] at h4
      | cons a l => simp
    simp [h1, h2, h3, h5, appendParts_eq]

theorem allText_cons (f : BackendFrame) (fs : List BackendFrame) :
    allText (f :: fs) = frameText f ++ allText fs := by
  simp [allText, concatTexts]

theorem serverRun_content (env : Env) (loc : Location) (acc : String)
    (frames : List BackendFrame) (h : ∀ f ∈ frames, isContentFrame f = true) :
    serverRun env loc acc frames =
      (acc ++ allText frames,
        (runningTexts acc frames).map (fun p => Effect.client (streamingMsg p))) := by
  induction frames generalizing acc with
  | nil => simp [serverRun, runningTexts, allText, concatTexts]
  | cons f fs ih =>
    have hf : isContentFrame f = true := h f (List.mem_cons_self f fs)
    have hfs : ∀ g ∈ fs, isContentFrame g = true := fun g hg => h g (List.mem_cons_of_mem f hg)
    simp only [serverRun, serverFrame_content env loc acc f hf, ih _ hfs, runningTexts,
      allText_cons, String.append_assoc, List.map_cons, List.singleton_append]

theorem runningTexts_length (acc : String) (frames : List BackendFrame) :
    (runningTexts acc frames).length = frames.length := by
  induction frames generalizing acc with
  | nil => simp [runningTexts]
  | cons f fs ih => simp [runningTexts, ih]

theorem strPrefix_append (a b : String) : StrPrefix a (a ++ b) := by
  unfold StrPrefix
  simp

theorem runningTexts_chain (acc : String) (frames : List BackendFrame) :
    List.Chain StrPrefix acc (runningTexts acc frames) := by
  induction frames generalizing acc with
  | nil => simp [runningTexts]
  | cons f fs ih =>
    simp only [runningTexts, List.chain_cons]
    exact ⟨strPrefix_append acc (frameText f), ih _⟩

theorem runningTexts_get (acc : String) (frames : List BackendFrame) (i : Nat)
    (hi : i < (runningTexts acc frames).length) :
    (runningTexts acc frames).get ⟨i, hi⟩ = acc ++ allText (frames.take (i + 1)) := by
  induction frames generalizing acc i with
  | nil => simp [runningTexts] at hi
  | cons f fs ih =>
    cases i with
    | zero => simp [runningTexts, allText, concatTexts]
    | succ j =>
      simp only [runningTexts, List.length_cons, Nat.add_lt_add_iff_right] at hi
      simp only [runningTexts, List.get_eq_getElem, List.getElem_cons_succ, List.take_succ_cons,
        allText_cons]
      have := ih (acc ++ frameText f) j hi
      simp only [List.get_eq_getElem] at this
      rw [this, String.append_assoc]

theorem runningTexts_getLast (acc : String) (frames : List BackendFrame) (hne : frames ≠ []) :
    (runningTexts acc frames).getLast? = some (acc ++ allText frames) := by
  induction frames generalizing acc with
  | nil => exact absurd rfl hne
  | cons f fs ih =>
    cases fs with
    | nil => simp [runningTexts, allText, concatTexts]
    | cons g gs =>
      have := ih (acc ++ frameText f) (by simp)
      rw [allText_cons, ← String.append_assoc, ← this]
      simp [runningTexts]

/-- C1: from an empty accumulator, a sequence of incremental-content frames
makes the relay send the client exactly one message per frame and nothing else,
the object with status "streaming", code 200 and the member `partial`; each
`partial` is an initial segment of the next one; the i-th `partial` is the
concatenation of the part texts of the first i frames, and the last one (and
the accumulator) is the concatenation of all the part texts in arrival
order. -/
theorem streaming_partials_grow (env : Env) (loc : Location) (frames : List BackendFrame)
    (h : ∀ f ∈ frames, isContentFrame f = true) :
    ∃ partials : List String,
      (serverRun env loc "" frames).2 = partials.map (fun p => Effect.client (Payload.marshal
        (JSON.obj [("status", JSON.str "streaming"), ("code", JSON.num "200"),
          ("partial", JSON.str p)]))) ∧
      partials.length = frames.length ∧
      List.Chain' (fun a b : String => a.data <+: b.data) partials ∧
      (∀ i (hi : i < partials.length),
        partials.get ⟨i, hi⟩ =
          concatTexts ((frames.take (i + 1)).map (fun f =>
            match f.decoded with
            | .ok m => concatTexts (m.ServerContent.Parts.map Part.Text)
            | .error _ => ""))) ∧
      (frames ≠ [] → partials.getLast? =
        some (concatTexts (frames.map (fun f =>
          match f.decoded with
          | .ok m => concatTexts (m.ServerContent.Parts.map Part.Text)
          | .error _ => "")))) ∧
      (serverRun env loc "" frames).1 =
        concatTexts (frames.map (fun f =>
          match f.decoded with
          | .ok m => concatTexts (m.ServerContent.Parts.map Part.Text)
          | .error _ => "")) := by
  refine ⟨runningTexts "" frames, ?_, runningTexts_length _ _, ?_, ?_, ?_, ?_⟩
  · rw [serverRun_content env loc "" frames h]
    rfl
  · cases frames with
    | nil => simp [runningTexts]
    | cons f fs => exact runningTexts_chain _ fs
  · intro i hi
    rw [runningTexts_get]
    simp only [String.empty_append]
    rfl
  · intro hne
    rw [runningTexts_getLast "" frames hne]
    simp only [String.empty_append]
    rfl
  · rw [serverRun_content env loc "" frames h]
    simp only [String.empty_append]
    rfl

/-- Witness of C1: three content frames with the texts "Ha", ("", "lo") and
"!": the client gets the partials "Ha", "Halo" and "Halo!". -/
theorem streaming_partials_grow_witness :
    (∀ f ∈ haloFrames, isContentFrame f = true) ∧
    serverRun (stubEnv (.error "no speech") (.error "no network")) initialLocation ""
      haloFrames =
      ("Halo!",
       [Effect.client (Payload.marshal (JSON.obj
          [("status", JSON.str "streaming"), ("code", JSON.num "200"),
           ("partial", JSON.str "Ha")])),
        Effect.client (Payload.marshal (JSON.obj
          [("status", JSON.str "streaming"), ("code", JSON.num "200"),
           ("partial", JSON.str "Halo")])),
        Effect.client (Payload.marshal (JSON.obj
          [("status", JSON.str "streaming"), ("code", JSON.num "200"),
           ("partial", JSON.str "Halo!")]))]) ∧
    ∃ partials : List String,
      (serverRun (stubEnv (.error "no speech") (.error "no network")) initialLocation ""
        haloFrames).2 = partials.map (fun p => Effect.client (Payload.marshal
          (JSON.obj [("status", JSON.str "streaming"), ("code", JSON.num "200"),
            ("partial", JSON.str p)]))) ∧
      partials.length = haloFrames.length ∧
      List.Chain' (fun a b : String => a.data <+: b.data) partials ∧
      (∀ i (hi : i < partials.length),
        partials.get ⟨i, hi⟩ =
          concatTexts ((haloFrames.take (i + 1)).map (fun f =>
            match f.decoded with
            | .ok m => concatTexts (m.ServerContent.Parts.map Part.Text)
            | .error _ => ""))) ∧
      (haloFrames ≠ [] → partials.getLast? =
        some (concatTexts (haloFrames.map (fun f =>
          match f.decoded with
          | .ok m => concatTexts (m.ServerContent.Parts.map Part.Text)
          | .error _ => "")))) ∧
      (serverRun (stubEnv (.error "no speech") (.error "no network")) initialLocation ""
        haloFrames).1 =
        concatTexts (haloFrames.map (fun f =>
          match f.decoded with
          | .ok m => concatTexts (m.ServerContent.Parts.map Part.Text)
          | .error _ => "")) :=
  ⟨by decide, by rfl, streaming_partials_grow _ _ haloFrames (by decide)⟩

/-- C2: on a turn-complete frame with a non-empty accumulated text `t` the
relay calls speech synthesis on `t` and sends the client exactly one message,
the object with status "success", code 200 and `response` equal to `t`, which
has the `audio` member exactly when speech synthesis returned no error, and it
writes nothing on the backend connection; with an empty accumulator it sends
nothing at all. -/
theorem turn_complete_sends_success (env : Env) (loc : Location) (t : String) (f : BackendFrame)
    (hf : isTurnCompleteFrame f = true) :
    (t ≠ "" →
      match env.textToSpeech t "en-US" with
      | .ok audio =>
        (serverFrame env loc t f).effects =
          [Effect.speech t "en-US", Effect.client (Payload.marshal (JSON.obj
            [("status", JSON.str "success"), ("code", JSON.num "200"), ("response", JSON.str t),
             ("audio", JSON.str audio)]))]
      | .error _ =>
        (serverFrame env loc t f).effects =
          [Effect.speech t "en-US", Effect.client (Payload.marshal (JSON.obj
            [("status", JSON.str "success"), ("code", JSON.num "200"),
             ("response", JSON.str t)]))]) ∧
    (t = "" → (serverFrame env loc t f).effects = []) := by
  unfold isTurnCompleteFrame at hf
  unfold serverFrame
  cases hd : f.decoded with
  | error e => simp [hd] at hf
  | ok m =>
    simp only [hd, Bool.and_eq_true, Option.isNone_iff_eq_none, Bool.not_eq_true'] at hf
    obtain ⟨⟨h1, h2⟩, h3⟩ := hf
    constructor
    · intro ht
      cases hs : env.textToSpeech t "en-US" with
      | error e => simp [h1, h2, h3, ht, hs, successMsg]
      | ok a => simp [h1, h2, h3, ht, hs, successMsg]
    · intro ht
      simp [h1, h2, h3, ht]

/-- Witness of C2, the scenario of the specification: the content frames
"Selamat " and "pagi" and then a turn-complete frame give the client the
partials "Selamat " and "Selamat pagi" and then one success message with the
response "Selamat pagi" (here with the audio the synthesis returned). -/
theorem turn_complete_sends_success_witness :
    isTurnCompleteFrame turnCompleteFrame = true ∧ "Selamat pagi" ≠ "" ∧
    (serverRun (stubEnv (.ok "SUQz") (.error "no network")) initialLocation ""
      [selamatFrame, pagiFrame]) =
      ("Selamat pagi", [Effect.client (streamingMsg "Selamat "),
        Effect.client (streamingMsg "Selamat pagi")]) ∧
    (serverFrame (stubEnv (.ok "SUQz") (.error "no network")) initialLocation "Selamat pagi"
      turnCompleteFrame).effects =
      [Effect.speech "Selamat pagi" "en-US", Effect.client (Payload.marshal (JSON.obj
        [("status", JSON.str "success"), ("code", JSON.num "200"),
         ("response", JSON.str "Selamat pagi"), ("audio", JSON.str "SUQz")]))] :=
  ⟨by decide, by decide, by rfl,
    (turn_complete_sends_success (stubEnv (.ok "SUQz") (.error "no network")) initialLocation
      "Selamat pagi" turnCompleteFrame (by decide)).1 (by decide)⟩

/-- C3: a turn-complete frame leaves the accumulator empty whatever it held,
and for the incremental-content frame that comes next the relay sends the
client one message, the object with status "streaming", code 200 and a
`partial` that is the concatenation of the part texts of that frame alone;
that concatenation is the accumulator afterwards. -/
theorem turn_complete_resets_accumulator (env : Env) (loc : Location) (t : String)
    (f next : BackendFrame) (m : VertexAIMessage) (hf : isTurnCompleteFrame f = true)
    (hnext : isContentFrame next = true) (hm : next.decoded = .ok m) :
    (serverFrame env loc t f).state = "" ∧
    (serverFrame env loc (serverFrame env loc t f).state next).effects =
      [Effect.client (Payload.marshal (JSON.obj
        [("status", JSON.str "streaming"), ("code", JSON.num "200"),
         ("partial", JSON.str (concatTexts (m.ServerContent.Parts.map Part.Text)))]))] ∧
    (serverFrame env loc (serverFrame env loc t f).state next).state =
      concatTexts (m.ServerContent.Parts.map Part.Text) := by
  have hstate : (serverFrame env loc t f).state = "" := by
    unfold isTurnCompleteFrame at hf
    unfold serverFrame
    cases hd : f.decoded with
    | error e => simp [hd] at hf
    | ok m =>
      simp only [hd, Bool.and_eq_true, Option.isNone_iff_eq_none, Bool.not_eq_true'] at hf
      obtain ⟨⟨h1, h2⟩, h3⟩ := hf
      by_cases ht : t = ""
      · simp [h1, h2, h3, ht]
      · cases hs : env.textToSpeech t "en-US" with
        | error e => simp [h1, h2, h3, ht, hs]
        | ok a => simp [h1, h2, h3, ht, hs]
  have htext : frameText next = concatTexts (m.ServerContent.Parts.map Part.Text) := by
    simp [frameText, hm]
  rw [hstate, serverFrame_content env loc "" next hnext, htext]
  simp [streamingMsg]

/-- Witness of C3: the accumulator holds "Selamat pagi", the turn completes,
and the content frame "Selamat " comes next: its partial is "Selamat ". -/
theorem turn_complete_resets_accumulator_witness :
    isTurnCompleteFrame turnCompleteFrame = true ∧
    isContentFrame selamatFrame = true ∧
    selamatFrame.decoded = .ok ⟨⟨false, [⟨"Selamat "⟩]⟩, none, false⟩ ∧
    (serverFrame (stubEnv (.error "no speech") (.error "no network")) initialLocation
      "Selamat pagi" turnCompleteFrame).state = "" ∧
    (serverFrame (stubEnv (.error "no speech") (.error "no network")) initialLocation
      (serverFrame (stubEnv (.error "no speech") (.error "no network")) initialLocation
        "Selamat pagi" turnCompleteFrame).state selamatFrame).effects =
      [Effect.client (Payload.marshal (JSON.obj
        [("status", JSON.str "streaming"), ("code", JSON.num "200"),
         ("partial", JSON.str "Selamat ")]))] ∧
    (serverFrame (stubEnv (.error "no speech") (.error "no network")) initialLocation
      (serverFrame (stubEnv (.error "no speech") (.error "no network")) initialLocation
        "Selamat pagi" turnCompleteFrame).state selamatFrame).state = "Selamat " :=
  ⟨by decide, by decide, rfl,
    turn_complete_resets_accumulator _ _ "Selamat pagi" turnCompleteFrame selamatFrame
      ⟨⟨false, [⟨"Selamat "⟩]⟩, none, false⟩ (by decide) (by decide) rfl⟩

theorem GetWeatherData_effects (env : Env) (lat lon : String) :
    (GetWeatherData env lat lon).1 = [Effect.httpGet (weatherURL lat lon (openWeatherKey env))] := by
  unfold GetWeatherData
  dsimp only
  split
  · rfl
  · split
    · rfl
    · split <;> rfl

theorem GetWeatherByCity_effects (env : Env) (loc : Location) (city apiKey : String) :
    (GetWeatherByCity env loc city apiKey).1 =
      [Effect.httpGet (weatherURL loc.userLatitude loc.userLongitude apiKey)] := by
  unfold GetWeatherByCity
  dsimp only
  split
  · rfl
  · split <;> rfl

/-- Counterexample to C4 as stated: the tool call `get_weather` with valid
coordinates, when the provider request fails, puts no function-result message
on the backend connection; the relay sends a fail notification to the client
instead. -/
theorem tool_call_provider_failure_no_function_result :
    (serverFrame (stubEnv (.error "no speech") (.error "timeout")) initialLocation ""
      weatherCallFrame).effects =
      [Effect.httpGet
        "https://api.openweathermap.org/data/2.5/weather?lat=-7.7325&lon=110.4024&units=metric&appid=b37372f2e51c91de829a24330f394857",
       Effect.client (Payload.text
        "\x7b\"status\": \"fail\", \"code\": 500, \"message\": \"Error executing function get_weather: failed to get weather data: failed to fetch weather data: timeout\"\x7d")] ∧
    backendWrites (serverFrame (stubEnv (.error "no speech") (.error "timeout")) initialLocation ""
      weatherCallFrame).effects = [] := by
  constructor <;> rfl

/-- C4, amended: for a tool-call frame whose first invocation is `get_weather`
with valid arguments, the relay calls the provider function of the arguments
(`GetWeatherData` for string coordinates, `GetWeatherByCity` for a string city
otherwise); when the provider function returns a result the relay writes
exactly one message on the backend connection, the function-result message
`functionResponse.responses` with the one response of name `get_weather` and
the result as its `content`, and nothing to the client; when it returns an
error the relay writes nothing on the backend connection and exactly one fail
notification (status "fail", code 500, the error in the message) to the
client. The accumulator is kept in both cases. -/
theorem tool_call_function_result (env : Env) (loc : Location) (acc : String) (f : BackendFrame)
    (m : VertexAIMessage) (call : FunctionCall) (hd : f.decoded = .ok m)
    (hcall : firstCall m = some call) (hname : call.Name = "get_weather") :
    (∀ lat lon, asString (mapIndex call.Args "latitude") = some lat →
      asString (mapIndex call.Args "longitude") = some lon →
      match (GetWeatherData env lat lon).2 with
      | .ok result =>
        backendWrites (serverFrame env loc acc f).effects =
          [Payload.marshal (JSON.obj [("functionResponse", JSON.obj [("responses",
            JSON.arr [JSON.obj [("name", JSON.str "get_weather"),
              ("response", JSON.obj [("content", JSON.str result)])]])])])] ∧
        clientWrites (serverFrame env loc acc f).effects = []
      | .error err =>
        backendWrites (serverFrame env loc acc f).effects = [] ∧
        clientWrites (serverFrame env loc acc f).effects =
          [Payload.text ("\x7b\"status\": \"fail\", \"code\": 500, \"message\": \"Error executing function "
            ++ "get_weather" ++ ": " ++ ("failed to get weather data: " ++ err) ++ "\"\x7d")]) ∧
    (∀ city, (asString (mapIndex call.Args "latitude") = none ∨
        asString (mapIndex call.Args "longitude") = none) →
      asString (mapIndex call.Args "city") = some city →
      match (GetWeatherByCity env loc city (openWeatherKey env)).2 with
      | .ok result =>
        backendWrites (serverFrame env loc acc f).effects =
          [Payload.marshal (JSON.obj [("functionResponse", JSON.obj [("responses",
            JSON.arr [JSON.obj [("name", JSON.str "get_weather"),
              ("response", JSON.obj [("content", JSON.str result)])]])])])] ∧
        clientWrites (serverFrame env loc acc f).effects = []
      | .error err =>
        backendWrites (serverFrame env loc acc f).effects = [] ∧
        clientWrites (serverFrame env loc acc f).effects =
          [Payload.text ("\x7b\"status\": \"fail\", \"code\": 500, \"message\": \"Error executing function "
            ++ "get_weather" ++ ": " ++ ("failed to get weather for city " ++ city ++ ": " ++ err)
            ++ "\"\x7d")]) ∧
    (serverFrame env loc acc f).state = acc := by
  refine ⟨?_, ?_, ?_⟩
  · intro lat lon hlat hlon
    have hE := GetWeatherData_effects env lat lon
    rcases hg : GetWeatherData env lat lon with ⟨effs, r⟩
    rw [hg] at hE
    simp only at hE
    subst hE
    cases r with
    | error e =>
      simp [serverFrame, hd, hcall, handleFunctionCall, hname, hlat, hlon, hg, backendWrites,
        clientWrites, toolFailMsg]
    | ok result =>
      simp [serverFrame, hd, hcall, handleFunctionCall, hname, hlat, hlon, hg, backendWrites,
        clientWrites, functionResponseMsg, weatherResponse]
  · intro city hnone hcity
    have hE := GetWeatherByCity_effects env loc city (openWeatherKey env)
    rcases hg : GetWeatherByCity env loc city (openWeatherKey env) with ⟨effs, r⟩
    rw [hg] at hE
    simp only at hE
    subst hE
    have hh : handleFunctionCall env loc call.Name call.Args =
        (match GetWeatherByCity env loc city (openWeatherKey env) with
          | (effs, .error err) =>
            (effs, .error ("failed to get weather for city " ++ city ++ ": " ++ err))
          | (effs, .ok result) => (effs, .ok (weatherResponse result))) := by
      unfold handleFunctionCall
      rw [if_pos hname]
      rcases hnone with h | h
      · rw [h]
        simp [hcity]
      · rw [h]
        cases asString (mapIndex call.Args "latitude") <;> simp [hcity]
    cases r with
    | error e =>
      rw [hg, hname] at hh
      simp [serverFrame, hd, hcall, hh, hname, backendWrites, clientWrites, toolFailMsg]
    | ok result =>
      rw [hg, hname] at hh
      simp [serverFrame, hd, hcall, hh, hname, backendWrites, clientWrites, functionResponseMsg,
        weatherResponse]
  · unfold serverFrame
    simp only [hd, hcall]
    rcases handleFunctionCall env loc call.Name call.Args with ⟨effs, r⟩
    cases r <;> rfl

/-- Witness of C4 (amended): the tool call `get_weather` with the coordinates
of Sleman, answered by the provider with status 200 and a weather report. -/
theorem tool_call_function_result_witness :
    weatherCallFrame.decoded = .ok ⟨⟨false, []⟩, some [⟨"get_weather",
      [("latitude", JSON.str "-7.7325"), ("longitude", JSON.str "110.4024")]⟩], false⟩ ∧
    backendWrites (serverFrame (stubEnv (.error "no speech") (okResponse cerahBody))
      initialLocation "" weatherCallFrame).effects =
      [Payload.marshal (JSON.obj [("functionResponse", JSON.obj [("responses",
        JSON.arr [JSON.obj [("name", JSON.str "get_weather"),
          ("response", JSON.obj [("content", JSON.str
            "\x7b\"weather\":[\x7b\"description\":\"cerah\"\x7d],\"main\":\x7b\"temp\":29.5\x7d\x7d")])]])])])] ∧
    clientWrites (serverFrame (stubEnv (.error "no speech") (okResponse cerahBody))
      initialLocation "" weatherCallFrame).effects = [] :=
  ⟨rfl, (tool_call_function_result (stubEnv (.error "no speech") (okResponse cerahBody))
    initialLocation "" weatherCallFrame _ ⟨"get_weather",
      [("latitude", JSON.str "-7.7325"), ("longitude", JSON.str "110.4024")]⟩ rfl rfl rfl).1
    "-7.7325" "110.4024" rfl rfl⟩

/-- C5: a capability name outside the dispatcher's table makes the Tool
Executor call no provider and return an unknown-capability error that names
the requested capability, whatever the arguments: `handleFunctionCall` of the
relay (table: `get_weather`) issues no effect at all, and the dispatch switch
of `generateWithFuncCall` (table: `getCurrentWeather`,
`getPlaceRecommendation`, `getExchangeRate`) calls no provider function and
hands the model an error response under the requested name. -/
theorem unknown_capability_no_provider_call (env : Env) (loc : Location) (P : Vertex.Providers)
    (name : String) (args : List (String × JSON)) :
    (name ≠ "get_weather" →
      handleFunctionCall env loc name args = ([], .error ("unknown function: " ++ name))) ∧
    (name ∉ ["getCurrentWeather", "getPlaceRecommendation", "getExchangeRate"] →
      Vertex.dispatch P ⟨name, args⟩ = ([], .error ("unknown function call: " ++ name)) ∧
      Vertex.functionResult ⟨name, args⟩ (Vertex.dispatch P ⟨name, args⟩).2 =
        { Name := name,
          Response := [("error", JSON.str ("Failed to execute function " ++ name ++
            ": " ++ ("unknown function call: " ++ name)))] }) := by
  constructor
  · intro h
    simp [handleFunctionCall, h]
  · intro h
    simp only [List.mem_cons, List.mem_singleton, not_or, List.not_mem_nil, or_false] at h
    obtain ⟨h1, h2, h3⟩ := h
    have hd : Vertex.dispatch P ⟨name, args⟩ = ([], .error ("unknown function call: " ++ name)) := by
      simp [Vertex.dispatch, h1, h2, h3]
    refine ⟨hd, ?_⟩
    rw [hd]
    rfl

/-- Witness of C5: the name `googleSearch` with a query. -/
theorem unknown_capability_no_provider_call_witness :
    "googleSearch" ≠ "get_weather" ∧
    "googleSearch" ∉ ["getCurrentWeather", "getPlaceRecommendation", "getExchangeRate"] ∧
    handleFunctionCall (stubEnv (.error "no speech") (okResponse cerahBody)) initialLocation
      "googleSearch" [("query", JSON.str "wisata sleman")] =
      ([], .error ("unknown function: " ++ "googleSearch")) ∧
    Vertex.dispatch (Vertex.constProviders (.ok (weatherResponse cerahBody)))
      ⟨"googleSearch", [("query", JSON.str "wisata sleman")]⟩ =
      ([], .error ("unknown function call: " ++ "googleSearch")) :=
  ⟨by decide, by decide,
    (unknown_capability_no_provider_call (stubEnv (.error "no speech") (okResponse cerahBody))
      initialLocation (Vertex.constProviders (.ok (weatherResponse cerahBody))) "googleSearch"
      [("query", JSON.str "wisata sleman")]).1 (by decide),
    ((unknown_capability_no_provider_call (stubEnv (.error "no speech") (okResponse cerahBody))
      initialLocation (Vertex.constProviders (.ok (weatherResponse cerahBody))) "googleSearch"
      [("query", JSON.str "wisata sleman")]).2 (by decide)).1⟩

/-- C6, the code at the failing input: the tool call `getExchangeRate` from
USD to IDR, with a provider that would answer with the rate 15000, makes the
relay write nothing on the backend connection and no provider request; the
client gets a fail notification that says the function is unknown. -/
theorem exchange_rate_call_not_dispatched :
    (serverFrame (stubEnv (.error "no speech") (okResponse rateBody)) initialLocation ""
      exchangeRateCallFrame).effects =
      [Effect.client (toolFailMsg "getExchangeRate" "unknown function: getExchangeRate")] ∧
    backendWrites (serverFrame (stubEnv (.error "no speech") (okResponse rateBody))
      initialLocation "" exchangeRateCallFrame).effects = [] ∧
    clientWrites (serverFrame (stubEnv (.error "no speech") (okResponse rateBody))
      initialLocation "" exchangeRateCallFrame).effects =
      [Payload.text
        "\x7b\"status\": \"fail\", \"code\": 500, \"message\": \"Error executing function getExchangeRate: unknown function: getExchangeRate\"\x7d"] := by
  refine ⟨rfl, rfl, rfl⟩

theorem stringField_foldl_no_error (tag : String) (members : List (String × JSON))
    (acc : String × Bool) (hacc : acc.2 = false)
    (h : ∀ kv ∈ members, foldEq kv.1 tag = true → ∃ s, kv.2 = JSON.str s) :
    (members.foldl (fun acc kv =>
      if foldEq kv.1 tag then
        match kv.2 with
        | JSON.str s => (s, acc.2)
        | JSON.null => acc
        | _ => (acc.1, true)
      else acc) acc).2 = false := by
  induction members generalizing acc with
  | nil => simpa using hacc
  | cons kv rest ih =>
    simp only [List.foldl_cons]
    apply ih
    · by_cases hk : foldEq kv.1 tag = true
      · obtain ⟨s, hs⟩ := h kv (List.mem_cons_self kv rest) hk
        simp [hk, hs, hacc]
      · simp [hk, hacc]
    · intro kv' hkv'
      exact h kv' (List.mem_cons_of_mem kv hkv')

theorem stringField_no_error (tag : String) (members : List (String × JSON))
    (h : ∀ kv ∈ members, foldEq kv.1 tag = true → ∃ s, kv.2 = JSON.str s) :
    (stringField tag members).2 = false :=
  stringField_foldl_no_error tag members ("", false) rfl h

/-- Counterexample to C7 as stated: the frame
`{"type":"location","latitude":-7.7325,"longitude":110.4024}` is a JSON object
whose `type` is "location" and that has `latitude` and `longitude` members, yet
the relay neither updates the LocationState nor sends an acknowledgment:
`json.Unmarshal` into `LocationMessage` fails on a number. -/
theorem numeric_location_frame_ignored :
    clientFrame (stubEnv (.error "no speech") (.error "no network")) initialLocation
      numericLocationFrame = ⟨initialLocation, [], true⟩ := by
  rfl

/-- C7, amended: for every client text frame that is a JSON object whose
members `type`, `latitude` and `longitude` (the names taken up to letter case,
as `encoding/json` does) are all JSON strings and whose `type` is "location",
the relay writes nothing on the backend connection, sets the LocationState to
the latitude and longitude of the frame, and sends the client exactly one
`location_updated` acknowledgment (code 200); the loop goes on. -/
theorem location_update_frame (env : Env) (loc : Location) (members : List (String × JSON))
    (hstr : ∀ kv ∈ members, isLocationField kv.1 = true → ∃ s, kv.2 = JSON.str s)
    (htype : (stringField "type" members).1 = "location") :
    clientFrame env loc (ClientFrame.text (some (JSON.obj members))) =
      ⟨⟨(stringField "latitude" members).1, (stringField "longitude" members).1⟩,
        [Effect.client (Payload.text
          "\x7b\"status\": \"location_updated\", \"code\": 200, \"message\": \"Lokasi berhasil diperbarui\"\x7d")],
        true⟩ ∧
    backendWrites (clientFrame env loc (ClientFrame.text (some (JSON.obj members)))).effects
      = [] := by
  have h1 : (stringField "type" members).2 = false :=
    stringField_no_error _ _ (fun kv hkv hf => hstr kv hkv (by simp [isLocationField, hf]))
  have h2 : (stringField "latitude" members).2 = false :=
    stringField_no_error _ _ (fun kv hkv hf => hstr kv hkv (by simp [isLocationField, hf]))
  have h3 : (stringField "longitude" members).2 = false :=
    stringField_no_error _ _ (fun kv hkv hf => hstr kv hkv (by simp [isLocationField, hf]))
  have hframe : clientFrame env loc (ClientFrame.text (some (JSON.obj members))) =
      ⟨⟨(stringField "latitude" members).1, (stringField "longitude" members).1⟩,
        [Effect.client confirmationMsg], true⟩ := by
    simp [clientFrame, locationUpdate, unmarshalLocationMessage, h1, h2, h3, htype]
  rw [hframe]
  exact ⟨rfl, rfl⟩

/-- Witness of C7 (amended), the scenario of the specification:
`{type:"location", latitude:"-7.7325", longitude:"110.4024"}`. -/
theorem location_update_frame_witness :
    clientFrame (stubEnv (.error "no speech") (.error "no network")) initialLocation
      slemanLocationFrame =
      ⟨⟨"-7.7325", "110.4024"⟩,
        [Effect.client (Payload.text
          "\x7b\"status\": \"location_updated\", \"code\": 200, \"message\": \"Lokasi berhasil diperbarui\"\x7d")],
        true⟩ ∧
    backendWrites (clientFrame (stubEnv (.error "no speech") (.error "no network"))
      initialLocation slemanLocationFrame).effects = [] :=
  location_update_frame (stubEnv (.error "no speech") (.error "no network")) initialLocation
    [("type", JSON.str "location"), ("latitude", JSON.str "-7.7325"),
     ("longitude", JSON.str "110.4024")]
    (by
      intro kv hkv _
      simp only [List.mem_cons, List.mem_singleton, List.not_mem_nil, or_false] at hkv
      rcases hkv with h | h | h <;> exact ⟨_, by rw [h]⟩)
    (by rfl)

/-- C8, the code at the initial state: the package variables start at
("-7.3305", "110.5084"), which is not the value ("0.0", "0.0") the keyword gate
tests for; so a question with a location keyword that arrives before any
location update is not answered with a location request but forwarded to the
backend. -/
theorem initial_location_not_unset :
    initialLocation = ⟨"-7.3305", "110.5084"⟩ ∧
    locationUnset initialLocation = false ∧
    locationUnset ⟨"0.0", "0.0"⟩ = true ∧
    needsLocation "restoran terdekat" = true ∧
    clientFrame (stubEnv (.error "no speech") (.error "no network")) initialLocation
      (freeFormFrame "restoran terdekat") =
      ⟨initialLocation, [Effect.backend (Payload.text (freeFormTurnText "restoran terdekat"))],
        true⟩ := by
  refine ⟨rfl, by decide, by decide, by decide, by rfl⟩

/-- C9, the code at the failing inputs: while no location update has come,
the LocationState is ("-7.3305", "110.5084"), for which the test of the keyword
gate is false. The question "kafe terdekat" then gets no location request and
is written on the backend connection as a user turn; the question
"Cuaca di restoran terdekat?", with a weather keyword too, gets no location
request either: the relay asks the weather provider for the initial
coordinates and sends the client the weather result. At the value the gate
tests for, ("0.0", "0.0"), which only a location update of the client can set,
a free-form message with a location keyword gets the one location request and
nothing else. -/
theorem location_question_before_location_update :
    clientFrame (stubEnv (.error "no speech") (okResponse cerahBody)) initialLocation
      (ClientFrame.text (some (JSON.obj [("text", JSON.str "kafe terdekat")]))) =
      ⟨⟨"-7.3305", "110.5084"⟩, [Effect.backend (Payload.text
        "\x7b\n\t\t\t\t\t\"client_content\": \x7b\n\t\t\t\t\t\t\"turns\": [\x7b\n\t\t\t\t\t\t\t\"role\": \"user\",\n\t\t\t\t\t\t\t\"parts\": [\x7b \"text\": \"kafe terdekat\" \x7d]\n\t\t\t\t\t\t\x7d],\n\t\t\t\t\t\t\"turn_complete\": true\n\t\t\t\t\t\x7d\n\t\t\t\t\x7d")],
        true⟩ ∧
    clientFrame (stubEnv (.error "no speech") (okResponse cerahBody)) initialLocation
      (ClientFrame.text (some (JSON.obj [("text", JSON.str "Cuaca di restoran terdekat?")]))) =
      ⟨⟨"-7.3305", "110.5084"⟩,
        [Effect.httpGet
          "https://api.openweathermap.org/data/2.5/weather?lat=-7.3305&lon=110.5084&units=metric&appid=b37372f2e51c91de829a24330f394857",
         Effect.client (Payload.text
          "\x7b\"status\":\"weather_result\",\"data\":\x7b\"weather\":[\x7b\"description\":\"cerah\"\x7d],\"main\":\x7b\"temp\":29.5\x7d\x7d\x7d")],
        true⟩ ∧
    (∀ (env : Env) (loc : Location) (members : List (String × JSON)) (t : String),
      locationUpdate (some (JSON.obj members)) = none →
      asString (mapIndex members "text") = some t →
      (∃ keyword ∈ ["di dekat", "terdekat", "sekitar sini", "di sekitar",
          "dekat sini", "di mana", "lokasi", "tempat", "jarak",
          "restoran", "kafe", "mall", "toko", "hotel", "wisata",
          "kuliner", "makanan", "minuman", "kopi", "nongkrong"],
        strings.Contains (env.ToLower t) keyword = true) →
      loc.userLatitude = "0.0" → loc.userLongitude = "0.0" →
      clientFrame env loc (ClientFrame.text (some (JSON.obj members))) =
        ⟨loc, [Effect.client (Payload.text
          "\x7b\"status\": \"location_request\", \"code\": 200, \"message\": \"Untuk menjawab pertanyaan ini, kami memerlukan lokasi Anda. Mohon aktifkan GPS dan izinkan akses lokasi.\"\x7d")],
          true⟩) := by
  refine ⟨by rfl, by rfl, ?_⟩
  intro env loc members t hfree ht hkw hlat hlon
  have hneeds : needsLocation (env.ToLower t) = true := by
    obtain ⟨k, hk, hc⟩ := hkw
    unfold needsLocation
    rw [List.any_eq_true]
    exact ⟨k, hk, hc⟩
  have hunset : locationUnset loc = true := by
    simp [locationUnset, hlat, hlon]
  simp [clientFrame, hfree, unmarshalMap, ht, clientFreeForm, hneeds, hunset, locationRequestMsg]

set_option maxRecDepth 20000 in
/-- C10, the code at the failing input: for the user text `say "hi"` the
relay writes on the backend connection a user turn in which the text stands
between two double quotes with nothing escaped, `"text": "say "hi""`, and that
message is not well-formed JSON; this holds for the free-form message and for
the structured message of type `text`. For a text without a quote, such as
`halo`, the message is well-formed. -/
theorem user_turn_text_not_escaped :
    clientFrame (stubEnv (.error "no speech") (.error "no network")) initialLocation sayHiFrame =
      ⟨initialLocation, [Effect.backend (Payload.text
        "\x7b\n\t\t\t\t\t\"client_content\": \x7b\n\t\t\t\t\t\t\"turns\": [\x7b\n\t\t\t\t\t\t\t\"role\": \"user\",\n\t\t\t\t\t\t\t\"parts\": [\x7b \"text\": \"say \"hi\"\" \x7d]\n\t\t\t\t\t\t\x7d],\n\t\t\t\t\t\t\"turn_complete\": true\n\t\t\t\t\t\x7d\n\t\t\t\t\x7d")],
        true⟩ ∧
    jsonValid (freeFormTurnText "say \"hi\"") = false ∧
    clientFrame (stubEnv (.error "no speech") (.error "no network")) initialLocation
      sayHiTextFrame =
      ⟨initialLocation, [Effect.backend (Payload.text
        "\x7b\n\t\t\t\t\"client_content\": \x7b\n\t\t\t\t\t\"turns\": [\x7b\n\t\t\t\t\t\t\"role\": \"user\",\n\t\t\t\t\t\t\"parts\": [\x7b \"text\": \"say \"hi\"\" \x7d]\n\t\t\t\t\t\x7d],\n\t\t\t\t\t\"turn_complete\": true\n\t\t\t\t\x7d\n\t\t\t\x7d")],
        true⟩ ∧
    jsonValid (textTurnText "say \"hi\"") = false ∧
    jsonValid (freeFormTurnText "halo") = true ∧
    jsonValid (textTurnText "halo") = true := by
  refine ⟨by rfl, by rfl, by rfl, by rfl, by rfl, by rfl⟩

theorem unmarshalMessage_type (members : List (String × JSON)) (msg : Message)
    (h : unmarshalMessage (some (JSON.obj members)) = some msg) :
    msg.Type_ = (stringField "type" members).1 := by
  simp only [unmarshalMessage] at h
  split at h
  · exact absurd h (by simp)
  · simp only [Option.some.injEq] at h
    rw [← h]

theorem locationUpdate_none_of_type (members : List (String × JSON))
    (h : (stringField "type" members).1 ≠ "location") :
    locationUpdate (some (JSON.obj members)) = none := by
  simp only [locationUpdate, unmarshalLocationMessage]
  split
  · rename_i lm hlm
    split at hlm
    · exact absurd hlm (by simp)
    · simp only [Option.some.injEq] at hlm
      rw [← hlm]
      simp [h]
  · rfl

theorem clientFrame_structured (env : Env) (loc : Location) (members : List (String × JSON))
    (hloc : (stringField "type" members).1 ≠ "location")
    (hfree : asString (mapIndex members "text") = none) :
    clientFrame env loc (ClientFrame.text (some (JSON.obj members))) =
      clientStructured env loc (some (JSON.obj members)) := by
  simp [clientFrame, locationUpdate_none_of_type members hloc, unmarshalMap, hfree]

/-- Counterexample to C11 as stated: the structured message
`{"type":"audio_end"}` has one of the four types, and the relay forwards
nothing: a message with an empty content is skipped as invalid before the type
is looked at. -/
theorem audio_end_without_content_skipped :
    clientFrame (stubEnv (.error "no speech") (.error "no network")) initialLocation
      audioEndFrame = ⟨initialLocation, [], true⟩ := by
  rfl

theorem clientFrame_structured_forward (env : Env) (loc : Location)
    (members : List (String × JSON)) (msg : Message)
    (hfree : asString (mapIndex members "text") = none)
    (hmsg : unmarshalMessage (some (JSON.obj members)) = some msg)
    (hcontent : msg.Content ≠ "") :
    (msg.Type_ = "text" →
      clientFrame env loc (ClientFrame.text (some (JSON.obj members))) =
        ⟨loc, [Effect.backend (Payload.text (textTurnText msg.Content))],
          !env.backendWriteFails (Payload.text (textTurnText msg.Content))⟩) ∧
    (msg.Type_ = "audio" →
      clientFrame env loc (ClientFrame.text (some (JSON.obj members))) =
        ⟨loc, [Effect.client audioConfirmation,
          Effect.backend (Payload.text (mediaChunkText "audio/webm" msg.Content))],
          !env.backendWriteFails (Payload.text (mediaChunkText "audio/webm" msg.Content))⟩) ∧
    (msg.Type_ = "audio_end" →
      clientFrame env loc (ClientFrame.text (some (JSON.obj members))) =
        ⟨loc, [Effect.backend (Payload.text endOfStreamText)],
          !env.backendWriteFails (Payload.text endOfStreamText)⟩) ∧
    (msg.Type_ = "image" →
      clientFrame env loc (ClientFrame.text (some (JSON.obj members))) =
        ⟨loc, [Effect.backend (Payload.text (mediaChunkText "image/jpeg" msg.Content))],
          !env.backendWriteFails (Payload.text (mediaChunkText "image/jpeg" msg.Content))⟩) := by
  have hty := unmarshalMessage_type members msg hmsg
  refine ⟨?_, ?_, ?_, ?_⟩
  · intro h
    rw [clientFrame_structured env loc members (by rw [← hty, h]; decide) hfree]
    simp [clientStructured, hmsg, h, hcontent, forward]
  · intro h
    rw [clientFrame_structured env loc members (by rw [← hty, h]; decide) hfree]
    simp [clientStructured, hmsg, h, hcontent, forward]
  · intro h
    rw [clientFrame_structured env loc members (by rw [← hty, h]; decide) hfree]
    simp [clientStructured, hmsg, h, hcontent, forward]
  · intro h
    rw [clientFrame_structured env loc members (by rw [← hty, h]; decide) hfree]
    simp [clientStructured, hmsg, h, hcontent, forward]

/-- C11, amended: for every structured client message (a JSON object without
a string `text` member that decodes into `Message`) with a non-empty content
whose type is one of text, audio, audio_end, image, the relay writes exactly
one message on the backend connection, of the shape of the type: for text the
`client_content` user turn with the content between quotes and
`turn_complete` true, for audio the `realtimeInput.mediaChunks` chunk of
mime type audio/webm with the content as data, for audio_end the
`realtimeInput` object with `endOfStream` true, for image the chunk of mime
type image/jpeg; and it sends the client the `audio_received` acknowledgment
(before the chunk) exactly when the type is audio. The LocationState is kept
and the loop goes on unless the write fails. -/
theorem structured_message_forwarded (env : Env) (loc : Location)
    (members : List (String × JSON)) (msg : Message)
    (hfree : asString (mapIndex members "text") = none)
    (hmsg : unmarshalMessage (some (JSON.obj members)) = some msg)
    (hcontent : msg.Content ≠ "") :
    (msg.Type_ = "text" →
      clientFrame env loc (ClientFrame.text (some (JSON.obj members))) =
        ⟨loc, [Effect.backend (Payload.text
          ("\x7b\n\t\t\t\t\"client_content\": \x7b\n\t\t\t\t\t\"turns\": [\x7b\n\t\t\t\t\t\t\"role\": \"user\",\n\t\t\t\t\t\t\"parts\": [\x7b \"text\": \""
            ++ msg.Content ++
            "\" \x7d]\n\t\t\t\t\t\x7d],\n\t\t\t\t\t\"turn_complete\": true\n\t\t\t\t\x7d\n\t\t\t\x7d"))],
          !env.backendWriteFails (Payload.text
          ("\x7b\n\t\t\t\t\"client_content\": \x7b\n\t\t\t\t\t\"turns\": [\x7b\n\t\t\t\t\t\t\"role\": \"user\",\n\t\t\t\t\t\t\"parts\": [\x7b \"text\": \""
            ++ msg.Content ++
            "\" \x7d]\n\t\t\t\t\t\x7d],\n\t\t\t\t\t\"turn_complete\": true\n\t\t\t\t\x7d\n\t\t\t\x7d"))⟩) ∧
    (msg.Type_ = "audio" →
      clientFrame env loc (ClientFrame.text (some (JSON.obj members))) =
        ⟨loc, [Effect.client (Payload.text "\x7b\"status\": \"audio_received\", \"code\": 200\x7d"),
          Effect.backend (Payload.text
          ("\x7b\n\t\t\t\t\"realtimeInput\": \x7b\n                  \"mediaChunks\": [\x7b\n                    \"mime_type\": \"audio/webm\",\n                    \"data\": \""
            ++ msg.Content ++ "\"\n                  \x7d]\n                \x7d\n\t\t\t\x7d"))],
          !env.backendWriteFails (Payload.text
          ("\x7b\n\t\t\t\t\"realtimeInput\": \x7b\n                  \"mediaChunks\": [\x7b\n                    \"mime_type\": \"audio/webm\",\n                    \"data\": \""
            ++ msg.Content ++ "\"\n                  \x7d]\n                \x7d\n\t\t\t\x7d"))⟩) ∧
    (msg.Type_ = "audio_end" →
      clientFrame env loc (ClientFrame.text (some (JSON.obj members))) =
        ⟨loc, [Effect.backend (Payload.text
          "\x7b\n\t\t\t\t\"realtimeInput\": \x7b\n\t\t\t\t\t\"endOfStream\": true\n\t\t\t\t\x7d\n\t\t\t\x7d")],
          !env.backendWriteFails (Payload.text
          "\x7b\n\t\t\t\t\"realtimeInput\": \x7b\n\t\t\t\t\t\"endOfStream\": true\n\t\t\t\t\x7d\n\t\t\t\x7d")⟩) ∧
    (msg.Type_ = "image" →
      clientFrame env loc (ClientFrame.text (some (JSON.obj members))) =
        ⟨loc, [Effect.backend (Payload.text
          ("\x7b\n\t\t\t\t\"realtimeInput\": \x7b\n                  \"mediaChunks\": [\x7b\n                    \"mime_type\": \"image/jpeg\",\n                    \"data\": \""
            ++ msg.Content ++ "\"\n                  \x7d]\n                \x7d\n\t\t\t\x7d"))],
          !env.backendWriteFails (Payload.text
          ("\x7b\n\t\t\t\t\"realtimeInput\": \x7b\n                  \"mediaChunks\": [\x7b\n                    \"mime_type\": \"image/jpeg\",\n                    \"data\": \""
            ++ msg.Content ++ "\"\n                  \x7d]\n                \x7d\n\t\t\t\x7d"))⟩) := by
  have hall := clientFrame_structured_forward env loc members msg hfree hmsg hcontent
  have htext : ∀ c : String, textTurnText c =
      "\x7b\n\t\t\t\t\"client_content\": \x7b\n\t\t\t\t\t\"turns\": [\x7b\n\t\t\t\t\t\t\"role\": \"user\",\n\t\t\t\t\t\t\"parts\": [\x7b \"text\": \""
        ++ c ++
        "\" \x7d]\n\t\t\t\t\t\x7d],\n\t\t\t\t\t\"turn_complete\": true\n\t\t\t\t\x7d\n\t\t\t\x7d" := by
    intro c
    apply String.ext
    simp [textTurnText, quoted]
  have haudio : ∀ c : String, mediaChunkText "audio/webm" c =
      "\x7b\n\t\t\t\t\"realtimeInput\": \x7b\n                  \"mediaChunks\": [\x7b\n                    \"mime_type\": \"audio/webm\",\n                    \"data\": \""
        ++ c ++ "\"\n                  \x7d]\n                \x7d\n\t\t\t\x7d" := by
    intro c
    apply String.ext
    simp [mediaChunkText]
  have himage : ∀ c : String, mediaChunkText "image/jpeg" c =
      "\x7b\n\t\t\t\t\"realtimeInput\": \x7b\n                  \"mediaChunks\": [\x7b\n                    \"mime_type\": \"image/jpeg\",\n                    \"data\": \""
        ++ c ++ "\"\n                  \x7d]\n                \x7d\n\t\t\t\x7d" := by
    intro c
    apply String.ext
    simp [mediaChunkText]
  refine ⟨fun h => ?_, fun h => ?_, fun h => ?_, fun h => ?_⟩
  · rw [hall.1 h, htext]
  · rw [hall.2.1 h, haudio]
    rfl
  · rw [hall.2.2.1 h]
    rfl
  · rw [hall.2.2.2 h, himage]

/-- Witness of C11 (amended): the audio chunk
`{"type":"audio","content":"UklGRg=="}`. -/
theorem structured_message_forwarded_witness :
    asString (mapIndex [("type", JSON.str "audio"), ("content", JSON.str "UklGRg==")] "text")
      = none ∧
    unmarshalMessage (some (JSON.obj [("type", JSON.str "audio"),
      ("content", JSON.str "UklGRg==")])) = some ⟨"audio", "UklGRg=="⟩ ∧
    clientFrame (stubEnv (.error "no speech") (.error "no network")) initialLocation
      (ClientFrame.text (some (JSON.obj [("type", JSON.str "audio"),
        ("content", JSON.str "UklGRg==")]))) =
      ⟨initialLocation,
        [Effect.client (Payload.text "\x7b\"status\": \"audio_received\", \"code\": 200\x7d"),
         Effect.backend (Payload.text
          "\x7b\n\t\t\t\t\"realtimeInput\": \x7b\n                  \"mediaChunks\": [\x7b\n                    \"mime_type\": \"audio/webm\",\n                    \"data\": \"UklGRg==\"\n                  \x7d]\n                \x7d\n\t\t\t\x7d")],
        true⟩ :=
  ⟨by rfl, by rfl,
    (structured_message_forwarded (stubEnv (.error "no speech") (.error "no network"))
      initialLocation [("type", JSON.str "audio"), ("content", JSON.str "UklGRg==")]
      ⟨"audio", "UklGRg=="⟩ (by rfl) (by rfl) (by decide)).2.1 rfl⟩

/-- Counterexample to C12 as stated: a frame with the setup-acknowledgment
marker and a tool call of `get_weather` is handled as a tool call: the tool is
executed (one provider request, one function-result message on the backend
connection) and no ready confirmation goes to the client. -/
theorem setup_marker_with_tool_call_runs_tool :
    isSetupComplete setupWithToolCallFrame.raw = true ∧
    (serverFrame (stubEnv (.error "no speech") (okResponse cerahBody)) initialLocation ""
      setupWithToolCallFrame).effects =
      [Effect.httpGet
        "https://api.openweathermap.org/data/2.5/weather?lat=-7.7325&lon=110.4024&units=metric&appid=b37372f2e51c91de829a24330f394857",
       Effect.backend (functionResponseMsg (weatherResponse cerahBody))] ∧
    clientWrites (serverFrame (stubEnv (.error "no speech") (okResponse cerahBody))
      initialLocation "" setupWithToolCallFrame).effects = [] := by
  refine ⟨by decide, by rfl, by rfl⟩

/-- C12, amended: a backend frame that decodes is handled as the first
matching case in the order tool-call request, setup-acknowledgment,
turn-complete, incremental content parts, generation-complete, whatever the
later cases say. A frame with a tool call is handled as a tool call (also
when it has the setup marker); without a tool call, a frame with the setup
marker gets the ready confirmation; without either, a frame with
`turn_complete` gets the turn-complete handling (its parts are not
accumulated); without those, a frame with parts gets a streaming update; any
other frame, `generationComplete` or not, sends nothing. -/
theorem backend_frame_precedence (env : Env) (loc : Location) (acc : String) (f : BackendFrame)
    (m : VertexAIMessage) (hd : f.decoded = .ok m) :
    (∀ call, firstCall m = some call →
      serverFrame env loc acc f =
        match handleFunctionCall env loc call.Name call.Args with
        | (effs, .error err) => ⟨acc, effs ++ [Effect.client (toolFailMsg call.Name err)], true⟩
        | (effs, .ok funcResponse) =>
          ⟨acc, effs ++ [Effect.backend (functionResponseMsg funcResponse)], true⟩) ∧
    (firstCall m = none → isSetupComplete f.raw = true →
      serverFrame env loc acc f = ⟨acc, [Effect.client connectedMsg], true⟩) ∧
    (firstCall m = none → isSetupComplete f.raw = false → m.ServerContent.TurnComplete = true →
      serverFrame env loc acc f =
        if acc = "" then ⟨acc, [], true⟩
        else ⟨"", [Effect.speech acc "en-US",
          Effect.client (successMsg acc (env.textToSpeech acc "en-US").toOption)], true⟩) ∧
    (firstCall m = none → isSetupComplete f.raw = false → m.ServerContent.TurnComplete = false →
      m.ServerContent.Parts ≠ [] →
      serverFrame env loc acc f =
        ⟨acc ++ frameText f, [Effect.client (streamingMsg (acc ++ frameText f))], true⟩) ∧
    (firstCall m = none → isSetupComplete f.raw = false → m.ServerContent.TurnComplete = false →
      m.ServerContent.Parts = [] →
      serverFrame env loc acc f = ⟨acc, [], true⟩) := by
  refine ⟨?_, ?_, ?_, ?_, ?_⟩
  · intro call hc
    simp only [serverFrame, hd, hc]
  · intro hc hs
    simp [serverFrame, hd, hc, hs]
  · intro hc hs ht
    by_cases ha : acc = ""
    · simp [serverFrame, hd, hc, hs, ht, ha]
    · cases htts : env.textToSpeech acc "en-US" with
      | error e => simp [serverFrame, hd, hc, hs, ht, ha, htts, Except.toOption]
      | ok a => simp [serverFrame, hd, hc, hs, ht, ha, htts, Except.toOption]
  · intro hc hs ht hp
    apply serverFrame_content
    simp [isContentFrame, hd, hc, hs, ht, hp]
  · intro hc hs ht hp
    simp [serverFrame, hd, hc, hs, ht, hp]

/-- Witness of C12 (amended): the frame with the setup marker and a tool
call, at its tool-call case. -/
theorem backend_frame_precedence_witness :
    setupWithToolCallFrame.decoded = .ok ⟨⟨false, []⟩, some [⟨"get_weather",
      [("latitude", JSON.str "-7.7325"), ("longitude", JSON.str "110.4024")]⟩], false⟩ ∧
    serverFrame (stubEnv (.error "no speech") (okResponse cerahBody)) initialLocation ""
      setupWithToolCallFrame =
      ⟨"", [Effect.httpGet
        "https://api.openweathermap.org/data/2.5/weather?lat=-7.7325&lon=110.4024&units=metric&appid=b37372f2e51c91de829a24330f394857",
       Effect.backend (functionResponseMsg (weatherResponse cerahBody))], true⟩ :=
  ⟨rfl, (backend_frame_precedence (stubEnv (.error "no speech") (okResponse cerahBody))
    initialLocation "" setupWithToolCallFrame _ rfl).1 ⟨"get_weather",
      [("latitude", JSON.str "-7.7325"), ("longitude", JSON.str "110.4024")]⟩ rfl⟩

/-- C13, the code at the failing input: the frame `{"setupComplete":{}}`,
the setup acknowledgment without the space after the colon, makes the relay
send nothing (it is dropped as unhandled), while `{"setupComplete": {}}` gets
the ready confirmation: `isSetupComplete` looks for the text
`"setupComplete": {}` in the raw frame. -/
theorem compact_setup_complete_dropped :
    isSetupComplete "\x7b\"setupComplete\":\x7b\x7d\x7d" = false ∧
    serverFrame (stubEnv (.error "no speech") (.error "no network")) initialLocation ""
      compactSetupFrame = ⟨"", [], true⟩ ∧
    serverFrame (stubEnv (.error "no speech") (.error "no network")) initialLocation ""
      spacedSetupFrame =
      ⟨"", [Effect.client (Payload.text
        "\x7b\"status\": \"connected to Vertex AI\", \"code\": 200, \"message\": \"AI Assistant Ready\"\x7d")],
        true⟩ := by
  refine ⟨by decide, by rfl, by rfl⟩

theorem handleFunctionCall_effects (env : Env) (loc : Location) (toolName : String)
    (params : List (String × JSON)) :
    (handleFunctionCall env loc toolName params).1 = [] ∨
    ∃ url, (handleFunctionCall env loc toolName params).1 = [Effect.httpGet url] := by
  unfold handleFunctionCall
  split
  · split
    · rename_i latitude longitude _ _
      have hE := GetWeatherData_effects env latitude longitude
      rcases hg : GetWeatherData env latitude longitude with ⟨effs, r⟩
      rw [hg] at hE
      simp only at hE
      cases r <;> exact Or.inr ⟨_, hE⟩
    · split
      · exact Or.inl rfl
      · rename_i city _
        have hE := GetWeatherByCity_effects env loc city (openWeatherKey env)
        rcases hg : GetWeatherByCity env loc city (openWeatherKey env) with ⟨effs, r⟩
        rw [hg] at hE
        simp only at hE
        cases r <;> exact Or.inr ⟨_, hE⟩
  · exact Or.inl rfl

theorem handleFunctionCall_clientWrites (env : Env) (loc : Location) (toolName : String)
    (params : List (String × JSON)) :
    clientWrites (handleFunctionCall env loc toolName params).1 = [] := by
  rcases handleFunctionCall_effects env loc toolName params with h | ⟨url, h⟩ <;>
    rw [h] <;> rfl

/-- C14: every message the relay writes to the client for a backend frame is
one of its own shapes (the ready confirmation, a streaming update, a success
message, one of the two fail notifications); the raw text of the frame bears
on what the relay does through `isSetupComplete` alone, so it is never copied
into a message; and a frame that decodes and matches none of the handled
cases produces no effect and leaves the accumulator unchanged. -/
theorem client_messages_are_relay_shapes (env : Env) (loc : Location) (acc : String)
    (f : BackendFrame) :
    (∀ p ∈ clientWrites (serverFrame env loc acc f).effects,
      p = connectedMsg ∨ (∃ s, p = streamingMsg s) ∨ (∃ t audio, p = successMsg t audio) ∨
      p = decodeFailMsg ∨ ∃ name err, p = toolFailMsg name err) ∧
    (∀ raw, isSetupComplete raw = isSetupComplete f.raw →
      serverFrame env loc acc ⟨raw, f.decoded⟩ = serverFrame env loc acc f) ∧
    (∀ m, f.decoded = .ok m → firstCall m = none → isSetupComplete f.raw = false →
      m.ServerContent.TurnComplete = false → m.ServerContent.Parts = [] →
      m.GenerationComplete = false →
      serverFrame env loc acc f = ⟨acc, [], true⟩) := by
  refine ⟨?_, ?_, ?_⟩
  · intro p hp
    cases hd : f.decoded with
    | error e =>
      simp [serverFrame, hd, clientWrites] at hp
      exact Or.inr (Or.inr (Or.inr (Or.inl hp)))
    | ok m =>
      cases hc : firstCall m with
      | some call =>
        have hcw := handleFunctionCall_clientWrites env loc call.Name call.Args
        rcases hh : handleFunctionCall env loc call.Name call.Args with ⟨effs, r⟩
        rw [hh] at hcw
        simp only [clientWrites] at hcw
        cases r with
        | error err =>
          simp [serverFrame, hd, hc, hh, clientWrites, List.filterMap_append, hcw] at hp
          exact Or.inr (Or.inr (Or.inr (Or.inr ⟨_, _, hp⟩)))
        | ok r =>
          simp [serverFrame, hd, hc, hh, clientWrites, List.filterMap_append, hcw] at hp
      | none =>
        by_cases hs : isSetupComplete f.raw = true
        · simp [serverFrame, hd, hc, hs, clientWrites] at hp
          exact Or.inl hp
        · by_cases ht : m.ServerContent.TurnComplete = true
          · by_cases ha : acc = ""
            · simp [serverFrame, hd, hc, hs, ht, ha, clientWrites] at hp
            · cases htts : env.textToSpeech acc "en-US" with
              | error e =>
                simp [serverFrame, hd, hc, hs, ht, ha, htts, clientWrites] at hp
                exact Or.inr (Or.inr (Or.inl ⟨_, _, hp⟩))
              | ok a =>
                simp [serverFrame, hd, hc, hs, ht, ha, htts, clientWrites] at hp
                exact Or.inr (Or.inr (Or.inl ⟨_, _, hp⟩))
          · by_cases hparts : m.ServerContent.Parts = []
            · simp [serverFrame, hd, hc, hs, ht, hparts, clientWrites] at hp
            · have hlen : 0 < m.ServerContent.Parts.length := List.length_pos.mpr hparts
              simp [serverFrame, hd, hc, hs, ht, hlen, clientWrites] at hp
              exact Or.inr (Or.inl ⟨_, hp⟩)
  · intro raw hraw
    simp only [serverFrame, hraw]
  · intro m hd hc hs ht hp _
    simp [serverFrame, hd, hc, hs, ht, hp]

/-- Witness of C14: the frame `{"setupComplete":{}}` decodes and matches none
of the handled cases. -/
theorem client_messages_are_relay_shapes_witness :
    serverFrame (stubEnv (.error "no speech") (.error "no network")) initialLocation "Selamat "
      compactSetupFrame = ⟨"Selamat ", [], true⟩ :=
  (client_messages_are_relay_shapes (stubEnv (.error "no speech") (.error "no network"))
    initialLocation "Selamat " compactSetupFrame).2.2 _ rfl rfl (by decide) rfl rfl rfl

/-- C15: a backend frame that does not decode makes the relay send the client
exactly one fail notification (status "fail", code 500) and nothing else, keeps
the accumulator, and the loop goes on; a read error on the backend connection
makes it send the client one fail notification with the error, and the loop
ends. -/
theorem decode_and_read_errors (env : Env) (loc : Location) (acc : String) (f : BackendFrame)
    (e : String) (hd : f.decoded = .error e) :
    serverIter env loc acc (.ok f) =
      ⟨acc, [Effect.client (Payload.text
        "\x7b\"status\": \"fail\", \"code\": 500, \"message\": \"Error processing AI response\"\x7d")],
        true⟩ ∧
    ∀ err, serverIter env loc acc (.error err) =
      ⟨acc, [Effect.client (Payload.text
        ("\x7b\"status\": \"fail\", \"code\": 500, \"message\": \"Connection to AI service lost: "
          ++ err ++ "\"\x7d"))], false⟩ := by
  constructor
  · simp [serverIter, serverFrame, hd, decodeFailMsg]
  · intro err
    rfl

/-- Witness of C15: a frame cut off in the middle, with "Selamat " in the
accumulator. -/
theorem decode_and_read_errors_witness :
    brokenFrame.decoded = .error "unexpected end of JSON input" ∧
    serverIter (stubEnv (.error "no speech") (.error "no network")) initialLocation "Selamat "
      (.ok brokenFrame) =
      ⟨"Selamat ", [Effect.client (Payload.text
        "\x7b\"status\": \"fail\", \"code\": 500, \"message\": \"Error processing AI response\"\x7d")],
        true⟩ :=
  ⟨rfl, (decode_and_read_errors (stubEnv (.error "no speech") (.error "no network"))
    initialLocation "Selamat " brokenFrame _ rfl).1⟩

/-- C16: for a tool-call frame with the invocations `call :: rest` the relay
invokes the Tool Executor once, with the name and the arguments of `call`: its
effects are those of that one invocation (at most one provider request)
followed by one message, and the whole iteration is the one of the frame with
`call` alone, so the invocations of `rest` cause no provider call and no
message. -/
theorem first_tool_call_only (env : Env) (loc : Location) (acc : String) (f : BackendFrame)
    (m : VertexAIMessage) (call : FunctionCall) (rest : List FunctionCall)
    (hd : f.decoded = .ok m) (hcalls : m.ToolCall = some (call :: rest)) :
    serverFrame env loc acc f =
      serverFrame env loc acc ⟨f.raw, .ok { m with ToolCall := some [call] }⟩ ∧
    (∃ msg, (serverFrame env loc acc f).effects =
      (handleFunctionCall env loc call.Name call.Args).1 ++ [msg]) ∧
    (providerRequests (serverFrame env loc acc f).effects).length ≤ 1 ∧
    (clientWrites (serverFrame env loc acc f).effects ++
      backendWrites (serverFrame env loc acc f).effects).length = 1 := by
  have hc : firstCall m = some call := by simp [firstCall, hcalls]
  have hframe : serverFrame env loc acc f =
      match handleFunctionCall env loc call.Name call.Args with
      | (effs, .error err) => ⟨acc, effs ++ [Effect.client (toolFailMsg call.Name err)], true⟩
      | (effs, .ok funcResponse) =>
        ⟨acc, effs ++ [Effect.backend (functionResponseMsg funcResponse)], true⟩ := by
    simp only [serverFrame, hd, hc]
  refine ⟨?_, ?_, ?_, ?_⟩
  · rw [hframe]
    simp only [serverFrame, firstCall]
  · rw [hframe]
    rcases handleFunctionCall env loc call.Name call.Args with ⟨effs, r⟩
    cases r <;> exact ⟨_, rfl⟩
  · rw [hframe]
    rcases handleFunctionCall_effects env loc call.Name call.Args with h | ⟨url, h⟩ <;>
      rcases hh : handleFunctionCall env loc call.Name call.Args with ⟨effs, r⟩ <;>
      rw [hh] at h <;> simp only at h <;> subst h <;> cases r <;> simp [providerRequests]
  · rw [hframe]
    rcases handleFunctionCall_effects env loc call.Name call.Args with h | ⟨url, h⟩ <;>
      rcases hh : handleFunctionCall env loc call.Name call.Args with ⟨effs, r⟩ <;>
      rw [hh] at h <;> simp only at h <;> subst h <;> cases r <;>
      simp [clientWrites, backendWrites]

/-- Witness of C16: a frame with two invocations of `get_weather`; the
provider is asked once, for the coordinates of the first. -/
theorem first_tool_call_only_witness :
    twoCallsFrame.decoded = .ok ⟨⟨false, []⟩, some [⟨"get_weather",
      [("latitude", JSON.str "-7.7325"), ("longitude", JSON.str "110.4024")]⟩,
      ⟨"get_weather", [("city", JSON.str "Sleman")]⟩], false⟩ ∧
    serverFrame (stubEnv (.error "no speech") (okResponse cerahBody)) initialLocation ""
      twoCallsFrame =
      serverFrame (stubEnv (.error "no speech") (okResponse cerahBody)) initialLocation ""
        ⟨twoCallsFrame.raw, .ok ⟨⟨false, []⟩, some [⟨"get_weather",
          [("latitude", JSON.str "-7.7325"), ("longitude", JSON.str "110.4024")]⟩], false⟩⟩ ∧
    (serverFrame (stubEnv (.error "no speech") (okResponse cerahBody)) initialLocation ""
      twoCallsFrame).effects =
      [Effect.httpGet
        "https://api.openweathermap.org/data/2.5/weather?lat=-7.7325&lon=110.4024&units=metric&appid=b37372f2e51c91de829a24330f394857",
       Effect.backend (functionResponseMsg (weatherResponse cerahBody))] :=
  ⟨rfl, (first_tool_call_only (stubEnv (.error "no speech") (okResponse cerahBody))
    initialLocation "" twoCallsFrame _ _ _ rfl rfl).1, by rfl⟩

theorem countP_merge (p : Action → Bool) (s : List Bool) (as bs : List Action) :
    (merge s as bs).countP p = as.countP p + bs.countP p := by
  induction s generalizing as bs with
  | nil =>
    cases as with
    | nil => simp [merge]
    | cons a as =>
      cases bs with
      | nil => simp [merge]
      | cons b bs =>
        simp only [merge]
        rw [List.countP_append]
  | cons t s ih =>
    cases as with
    | nil => simp [merge]
    | cons a as =>
      cases bs with
      | nil => simp [merge]
      | cons b bs =>
        cases t with
        | true =>
          simp only [merge, List.countP_cons, ih]
          omega
        | false =>
          simp only [merge, List.countP_cons, ih]
          omega

theorem countP_isClose_effects (c : Conn) (effects : List Effect) :
    (effects.map Action.effect).countP (isClose c) = 0 := by
  induction effects with
  | nil => rfl
  | cons e es ih => simp [List.countP_cons, isClose, ih]

theorem countP_isRead_effects (c : Conn) (effects : List Effect) :
    (effects.map Action.effect).countP (isRead c) = 0 := by
  induction effects with
  | nil => rfl
  | cons e es ih => simp [List.countP_cons, isRead, ih]

theorem closes_clientLoop (env : Env) (c : Conn) (loc : Location) (frames : List ClientFrame)
    (err : String) : closes c (clientLoop env loc frames err).2 = 0 := by
  unfold closes
  induction frames generalizing loc with
  | nil => simp [clientLoop, List.countP_cons, isClose, countP_isClose_effects]
  | cons f rest ih =>
    unfold clientLoop
    split
    · simp [List.countP_cons, List.countP_append, isClose, countP_isClose_effects, ih]
    · simp [List.countP_cons, List.countP_append, isClose, countP_isClose_effects]

theorem closes_serverLoop (env : Env) (c : Conn) (acc : String)
    (frames : List (Location × BackendFrame)) (err : String) :
    closes c (serverLoop env acc frames err) = 0 := by
  unfold closes
  induction frames generalizing acc with
  | nil => simp [serverLoop, List.countP_cons, List.countP_append, isClose, countP_isClose_effects]
  | cons lf rest ih =>
    simp [serverLoop, List.countP_cons, List.countP_append, isClose, countP_isClose_effects, ih]

theorem closes_proxyMessagesClient (env : Env) (loc : Location) (frames : List ClientFrame)
    (err : String) :
    closes Conn.client (proxyMessagesClient env loc frames err) = 1 ∧
    closes Conn.backend (proxyMessagesClient env loc frames err) = 0 := by
  have h1 := closes_clientLoop env Conn.client loc frames err
  have h2 := closes_clientLoop env Conn.backend loc frames err
  unfold closes at *
  simp [proxyMessagesClient, List.countP_append, List.countP_cons, isClose, h1, h2]

theorem closes_client_proxyMessagesServer (env : Env) (name : String)
    (frames : List (Location × BackendFrame)) (err : String) :
    closes Conn.client (proxyMessagesServer env name frames err) = 0 := by
  have h1 := closes_serverLoop env Conn.client "" frames err
  unfold closes at *
  simp [proxyMessagesServer, List.countP_append, List.countP_cons, isClose, h1]

theorem setupVertexAI_ok (up : Upstream) (loc : Location)
    (hok : (setupVertexAI up loc).2 = .ok ()) :
    setupVertexAI up loc =
      ([Action.effect (Effect.backend (Payload.text
        (setupPayloadVertex up (systemInstruction loc.userLatitude loc.userLatitude))))],
        .ok ()) := by
  unfold setupVertexAI at hok ⊢
  split
  · rename_i h
    rw [h] at hok
    simp at hok
  · rename_i token h
    rw [h] at hok
    split
    · rename_i e hdial
      simp [hdial] at hok
    · rfl

theorem handleClient_ok (up : Upstream) (env : Env) (loc : Location) (s : Session)
    (hok : (setupVertexAI up loc).2 = .ok ()) :
    handleClient up env loc s =
      [Action.effect (Effect.backend (Payload.text
        (setupPayloadVertex up (systemInstruction loc.userLatitude loc.userLatitude))))] ++
      [Action.store (Key.conn Conn.client)] ++
      merge s.schedule (proxyMessagesClient env loc s.clientFrames s.clientErr)
        (proxyMessagesServer env "Server->Client" s.serverFrames s.serverErr) ++
      [Action.delete (Key.conn Conn.client), Action.close Conn.backend] := by
  unfold handleClient
  rw [setupVertexAI_ok up loc hok]

theorem registryAfter_delete_last (reg : Registry) (before : List Action) (k : Key) (c : Conn) :
    k ∉ registryAfter reg (before ++ [Action.delete k, Action.close c]) := by
  simp [registryAfter, List.foldl_append, applyAction]

/-- C17: when the connector fails to establish the backend connection (the
credential retrieval fails, or the dial fails), `handleClient` does nothing
but close the client connection: the registry is as before, and no relay loop
is started (no read is made). -/
theorem connector_failure_no_session (up : Upstream) (env : Env) (loc : Location) (s : Session)
    (reg : Registry)
    (hfail : (∃ e, up.getAccessToken = .error e) ∨
      (∃ token e, up.getAccessToken = .ok token ∧ up.Dial token = some e)) :
    handleClient up env loc s = [Action.close Conn.client] ∧
    registryAfter reg (handleClient up env loc s) = reg ∧
    ∀ c, (handleClient up env loc s).countP (isRead c) = 0 := by
  have h : handleClient up env loc s = [Action.close Conn.client] := by
    rcases hfail with ⟨e, he⟩ | ⟨token, e, ht, hdial⟩
    · simp [handleClient, setupVertexAI, he]
    · simp [handleClient, setupVertexAI, ht, hdial]
  rw [h]
  refine ⟨rfl, rfl, ?_⟩
  intro c
  rfl

/-- Witness of C17: the key file of the credentials cannot be opened. -/
theorem connector_failure_no_session_witness :
    noTokenUpstream.getAccessToken = .error "error opening key file" ∧
    handleClient noTokenUpstream (stubEnv (.error "no speech") (.error "no network"))
      initialLocation shortSession = [Action.close Conn.client] ∧
    registryAfter [Key.conn Conn.backend] (handleClient noTokenUpstream
      (stubEnv (.error "no speech") (.error "no network")) initialLocation shortSession) =
      [Key.conn Conn.backend] :=
  ⟨rfl, (connector_failure_no_session noTokenUpstream _ initialLocation shortSession
    [Key.conn Conn.backend] (Or.inl ⟨_, rfl⟩)).1,
   (connector_failure_no_session noTokenUpstream _ initialLocation shortSession
    [Key.conn Conn.backend] (Or.inl ⟨_, rfl⟩)).2.1⟩

/-- Counterexample to C18 as stated: in a session in which both first reads
fail, the backend connection is closed three times (by `proxyMessagesServer`
before its loop and at its return, and by `handleClient` at its return), not
once. -/
theorem backend_connection_closed_three_times :
    closes Conn.backend (handleClient okUpstream (stubEnv (.error "no speech")
      (.error "no network")) initialLocation shortSession) = 3 ∧
    closes Conn.client (handleClient okUpstream (stubEnv (.error "no speech")
      (.error "no network")) initialLocation shortSession) = 1 := by
  constructor <;> rfl

/-- C18, amended: over the whole life of a registered session whose two relay
functions return, the client connection is closed exactly once, the backend
connection is closed at least once and the last action of the teardown is a
close of it, and after the teardown the registry holds no entry for the
session. -/
theorem session_teardown (up : Upstream) (env : Env) (loc : Location) (s : Session)
    (reg : Registry) (hok : (setupVertexAI up loc).2 = .ok ()) :
    closes Conn.client (handleClient up env loc s) = 1 ∧
    1 ≤ closes Conn.backend (handleClient up env loc s) ∧
    (handleClient up env loc s).getLast? = some (Action.close Conn.backend) ∧
    Key.conn Conn.client ∉ registryAfter reg (handleClient up env loc s) := by
  rw [handleClient_ok up env loc s hok]
  refine ⟨?_, ?_, ?_, ?_⟩
  · have h1 := (closes_proxyMessagesClient env loc s.clientFrames s.clientErr).1
    have h2 := closes_client_proxyMessagesServer env "Server->Client" s.serverFrames s.serverErr
    unfold closes at *
    simp [List.countP_append, List.countP_cons, countP_merge, isClose, h1, h2]
  · unfold closes
    simp [List.countP_append, List.countP_cons, isClose]
  · rw [show [Action.delete (Key.conn Conn.client), Action.close Conn.backend] =
      [Action.delete (Key.conn Conn.client)] ++ [Action.close Conn.backend] from rfl]
    rw [← List.append_assoc]
    exact List.getLast?_concat _
  · exact registryAfter_delete_last reg _ _ _

/-- Witness of C18 (amended): the session in which both first reads fail,
with the client already in the registry of another run. -/
theorem session_teardown_witness :
    (setupVertexAI okUpstream initialLocation).2 = .ok () ∧
    closes Conn.client (handleClient okUpstream (stubEnv (.error "no speech")
      (.error "no network")) initialLocation shortSession) = 1 ∧
    Key.conn Conn.client ∉ registryAfter [Key.conn Conn.client] (handleClient okUpstream
      (stubEnv (.error "no speech") (.error "no network")) initialLocation shortSession) :=
  ⟨rfl, (session_teardown okUpstream _ initialLocation shortSession [Key.conn Conn.client]
    rfl).1,
   (session_teardown okUpstream _ initialLocation shortSession [Key.conn Conn.client]
    rfl).2.2.2⟩

theorem clientStructured_goesOn (env : Env) (loc : Location) (parsed : Option JSON)
    (hw : ∀ p, env.backendWriteFails p = false) :
    (clientStructured env loc parsed).goesOn = true := by
  unfold clientStructured
  split
  · rfl
  · split_ifs <;> simp [forward, hw]

theorem clientFrame_goesOn (env : Env) (loc : Location) (f : ClientFrame)
    (hw : ∀ p, env.backendWriteFails p = false) :
    (clientFrame env loc f).goesOn = true := by
  unfold clientFrame
  split
  · simp [hw]
  · split
    · rfl
    · split
      · split
        · unfold clientFreeForm
          dsimp only
          split_ifs
          · rfl
          · split <;> rfl
          · simp [forward, hw]
        · exact clientStructured_goesOn env loc _ hw
      · exact clientStructured_goesOn env loc _ hw

theorem reads_clientLoop (env : Env) (loc : Location) (frames : List ClientFrame) (err : String)
    (hw : ∀ p, env.backendWriteFails p = false) :
    (clientLoop env loc frames err).2.countP (isRead Conn.client) = frames.length + 1 := by
  induction frames generalizing loc with
  | nil => simp [clientLoop, List.countP_cons, isRead, countP_isRead_effects]
  | cons f rest ih =>
    unfold clientLoop
    rw [if_pos (clientFrame_goesOn env loc f hw)]
    simp only [List.countP_append, List.countP_cons, List.countP_nil, isRead,
      countP_isRead_effects, ih, List.length_cons]
    simp
    omega

theorem clientLoop_ends (env : Env) (loc : Location) (frames : List ClientFrame) (err : String)
    (hw : ∀ p, env.backendWriteFails p = false) :
    ∃ before, (clientLoop env loc frames err).2 =
      before ++ [Action.read Conn.client,
        Action.effect (Effect.backend (clientReadFailMsg err))] := by
  induction frames generalizing loc with
  | nil => exact ⟨[], rfl⟩
  | cons f rest ih =>
    obtain ⟨before, hb⟩ := ih (clientFrame env loc f).state
    refine ⟨[Action.read Conn.client] ++ (clientFrame env loc f).effects.map Action.effect ++
      before, ?_⟩
    unfold clientLoop
    rw [if_pos (clientFrame_goesOn env loc f hw)]
    simp only [hb, List.append_assoc]

/-- C19, the code at the failing input: when the read of the client
connection fails, `proxyMessagesClient` writes one more frame on `dest`, the
backend connection: its notice with the status "fail connect to websocket",
code 500 and the error; then it closes the client connection and returns.
This is so when the first read fails, and after any frames when no write on
the backend connection failed. In the session in which the client read fails
before the Upstream Relay has taken a step the notice is written on the
backend connection before any close of it; the actions after the handshake
are listed in full. The Upstream Relay writes the notice of its own failed
read on the client connection. -/
theorem client_read_failure_notice_on_backend :
    (∀ (env : Env) (loc : Location) (err : String),
      proxyMessagesClient env loc [] err =
        [Action.read Conn.client,
         Action.effect (Effect.backend (Payload.text
          ("\x7b\"status\": \"fail connect to websocket\", \"code\": 500, \"message\": \""
            ++ err ++ "\"\x7d"))),
         Action.close Conn.client]) ∧
    (∀ (env : Env) (loc : Location) (frames : List ClientFrame) (err : String),
      (∀ p, env.backendWriteFails p = false) →
      ∃ before, proxyMessagesClient env loc frames err =
        before ++ [Action.read Conn.client,
          Action.effect (Effect.backend (Payload.text
            ("\x7b\"status\": \"fail connect to websocket\", \"code\": 500, \"message\": \""
              ++ err ++ "\"\x7d"))),
          Action.close Conn.client]) ∧
    (handleClient okUpstream (stubEnv (.error "no speech") (.error "no network"))
      initialLocation clientGoneSession).drop 1 =
      [Action.store (Key.conn Conn.client),
       Action.read Conn.client,
       Action.effect (Effect.backend (Payload.text
        "\x7b\"status\": \"fail connect to websocket\", \"code\": 500, \"message\": \"websocket: close 1006\"\x7d")),
       Action.close Conn.client,
       Action.delete (Key.name "Server->Client"),
       Action.close Conn.backend,
       Action.read Conn.backend,
       Action.effect (Effect.client (Payload.text
        "\x7b\"status\": \"fail\", \"code\": 500, \"message\": \"Connection to AI service lost: use of closed network connection\"\x7d")),
       Action.delete (Key.conn Conn.client),
       Action.close Conn.backend,
       Action.delete (Key.conn Conn.client),
       Action.close Conn.backend] ∧
    (∀ (env : Env) (loc : Location) (acc err : String),
      (serverIter env loc acc (.error err)).effects =
        [Effect.client (Payload.text
          ("\x7b\"status\": \"fail\", \"code\": 500, \"message\": \"Connection to AI service lost: "
            ++ err ++ "\"\x7d"))]) := by
  refine ⟨fun _ _ _ => rfl, ?_, by rfl, fun _ _ _ _ => rfl⟩
  intro env loc frames err hw
  obtain ⟨before, hb⟩ := clientLoop_ends env loc frames err hw
  refine ⟨before, ?_⟩
  simp only [proxyMessagesClient, hb, List.append_assoc, clientReadFailMsg]
  rfl

/-- The teardown after a failed client read: when the read of the client
connection fails while the writes on the backend connection succeed, the
Downstream Relay has read every frame before and reads nothing after, it
closes the client connection as its last action and does not close the
backend connection; the teardown of `handleClient`, the delete from the
registry and the close of the backend connection, comes after the actions of
both relay functions, and after it the registry holds no entry for the
session. -/
theorem client_read_failure_teardown (up : Upstream) (env : Env) (loc : Location) (s : Session)
    (reg : Registry) (hok : (setupVertexAI up loc).2 = .ok ())
    (hw : ∀ p, env.backendWriteFails p = false) :
    (proxyMessagesClient env loc s.clientFrames s.clientErr).countP (isRead Conn.client) =
      s.clientFrames.length + 1 ∧
    (proxyMessagesClient env loc s.clientFrames s.clientErr).getLast? =
      some (Action.close Conn.client) ∧
    closes Conn.backend (proxyMessagesClient env loc s.clientFrames s.clientErr) = 0 ∧
    (∃ before, handleClient up env loc s =
      before ++ merge s.schedule (proxyMessagesClient env loc s.clientFrames s.clientErr)
        (proxyMessagesServer env "Server->Client" s.serverFrames s.serverErr) ++
      [Action.delete (Key.conn Conn.client), Action.close Conn.backend]) ∧
    Key.conn Conn.client ∉ registryAfter reg (handleClient up env loc s) := by
  refine ⟨?_, ?_, ?_, ?_, ?_⟩
  · unfold proxyMessagesClient
    rw [List.countP_append, reads_clientLoop env loc _ _ hw]
    rfl
  · exact List.getLast?_concat _
  · exact (closes_proxyMessagesClient env loc _ _).2
  · exact ⟨_, handleClient_ok up env loc s hok⟩
  · rw [handleClient_ok up env loc s hok]
    exact registryAfter_delete_last reg _ _ _

/-- The teardown at the session in which the first read of the client
connection fails. -/
theorem client_read_failure_teardown_witness :
    (setupVertexAI okUpstream initialLocation).2 = .ok () ∧
    (∀ p, (stubEnv (.error "no speech") (okResponse cerahBody)).backendWriteFails p = false) ∧
    (proxyMessagesClient (stubEnv (.error "no speech") (okResponse cerahBody)) initialLocation
      clientDropsSession.clientFrames clientDropsSession.clientErr).getLast? =
      some (Action.close Conn.client) ∧
    closes Conn.backend (proxyMessagesClient (stubEnv (.error "no speech")
      (okResponse cerahBody)) initialLocation clientDropsSession.clientFrames
      clientDropsSession.clientErr) = 0 :=
  ⟨rfl, fun _ => rfl,
    (client_read_failure_teardown okUpstream (stubEnv (.error "no speech")
      (okResponse cerahBody)) initialLocation clientDropsSession [] rfl (fun _ => rfl)).2.1,
    (client_read_failure_teardown okUpstream (stubEnv (.error "no speech")
      (okResponse cerahBody)) initialLocation clientDropsSession [] rfl (fun _ => rfl)).2.2.1⟩

set_option maxRecDepth 100000 in
/-- C20, the code at the failing input: for the LocationState
("-7.3305", "110.5084") the system instruction of the handshake reads
"latitude: -7.3305 and longitude: -7.3305." and the longitude 110.5084 is
nowhere in it; for every LocationState the connector fills both placeholders
with `userLatitude`. -/
theorem handshake_longitude_is_latitude :
    (∀ loc : Location, setupVertexAI okUpstream loc =
      ([Action.effect (Effect.backend (Payload.text (setupPayloadVertex okUpstream
        (systemInstruction loc.userLatitude loc.userLatitude))))], .ok ())) ∧
    (∀ latitude longitude : String, systemInstruction latitude longitude =
      systemInstructionHead ++ latitude ++ " and longitude: " ++ longitude ++
        systemInstructionTail) ∧
    strings.Contains systemInstructionHead "user location based on latitude: " = true ∧
    strings.Contains (systemInstruction initialLocation.userLatitude
      initialLocation.userLatitude) "latitude: -7.3305 and longitude: -7.3305." = true ∧
    strings.Contains (systemInstruction initialLocation.userLatitude
      initialLocation.userLatitude) "110.5084" = false := by
  refine ⟨fun _ => rfl, fun _ _ => rfl, by decide, by decide, by decide⟩

theorem ne_invalidWeatherArgsMsg_of_head (s : String)
    (hs : s.data.head? = some (Char.ofNat 102)) : s ≠ invalidWeatherArgsMsg := by
  intro h
  have h2 : invalidWeatherArgsMsg.data.head? = some (Char.ofNat 105) := by rfl
  rw [h, h2] at hs
  exact absurd hs (by decide)

/-- C22: for `get_weather`, when the argument map has no string `city` and
not both `latitude` and `longitude` as strings (a member of another type
counts as missing), `handleFunctionCall` calls no provider and returns the
invalid-arguments error; in every other case it makes exactly one provider
request and its result is not the invalid-arguments error. -/
theorem get_weather_argument_validation (env : Env) (loc : Location)
    (params : List (String × JSON)) :
    (invalidWeatherArgs params = true →
      handleFunctionCall env loc "get_weather" params =
        ([], .error "invalid or missing 'latitude'/'longitude' or 'city' parameter in get_weather call")) ∧
    (invalidWeatherArgs params = false →
      (providerRequests (handleFunctionCall env loc "get_weather" params).1).length = 1 ∧
      (handleFunctionCall env loc "get_weather" params).2 ≠
        .error "invalid or missing 'latitude'/'longitude' or 'city' parameter in get_weather call") := by
  have hcityPath : ∀ city, asString (mapIndex params "city") = some city →
      (asString (mapIndex params "latitude") = none ∨
        asString (mapIndex params "longitude") = none) →
      (providerRequests (handleFunctionCall env loc "get_weather" params).1).length = 1 ∧
      (handleFunctionCall env loc "get_weather" params).2 ≠ .error invalidWeatherArgsMsg := by
    intro city hcity hnone
    have hE := GetWeatherByCity_effects env loc city (openWeatherKey env)
    rcases hg : GetWeatherByCity env loc city (openWeatherKey env) with ⟨effs, r⟩
    rw [hg] at hE
    simp only at hE
    subst hE
    have hh : handleFunctionCall env loc "get_weather" params =
        (match GetWeatherByCity env loc city (openWeatherKey env) with
          | (effs, .error err) =>
            (effs, .error ("failed to get weather for city " ++ city ++ ": " ++ err))
          | (effs, .ok result) => (effs, .ok (weatherResponse result))) := by
      unfold handleFunctionCall
      rw [if_pos rfl]
      rcases hnone with h | h
      · rw [h]
        simp [hcity]
      · rw [h]
        cases asString (mapIndex params "latitude") <;> simp [hcity]
    rw [hh, hg]
    cases r with
    | error e =>
      refine ⟨rfl, ?_⟩
      intro h
      simp only [Except.error.injEq] at h
      exact ne_invalidWeatherArgsMsg_of_head _ (by simp only [String.data_append]; rfl) h
    | ok result =>
      refine ⟨rfl, ?_⟩
      intro h
      cases h
  cases hlat : asString (mapIndex params "latitude") with
  | none =>
    cases hcity : asString (mapIndex params "city") with
    | none =>
      constructor
      · intro _
        simp [handleFunctionCall, hlat, hcity]
      · intro h
        simp [invalidWeatherArgs, hlat, hcity] at h
    | some city =>
      constructor
      · intro h
        simp [invalidWeatherArgs, hlat, hcity] at h
      · intro _
        exact hcityPath city hcity (Or.inl hlat)
  | some lat =>
    cases hlon : asString (mapIndex params "longitude") with
    | none =>
      cases hcity : asString (mapIndex params "city") with
      | none =>
        constructor
        · intro _
          simp [handleFunctionCall, hlat, hlon, hcity]
        · intro h
          simp [invalidWeatherArgs, hlat, hlon, hcity] at h
      | some city =>
        constructor
        · intro h
          simp [invalidWeatherArgs, hlat, hlon, hcity] at h
        · intro _
          exact hcityPath city hcity (Or.inr hlon)
    | some lon =>
      constructor
      · intro h
        simp [invalidWeatherArgs, hlat, hlon] at h
      · intro _
        have hE := GetWeatherData_effects env lat lon
        rcases hg : GetWeatherData env lat lon with ⟨effs, r⟩
        rw [hg] at hE
        simp only at hE
        subst hE
        cases r with
        | error e =>
          simp only [handleFunctionCall, hlat, hlon, hg, if_true]
          refine ⟨rfl, ?_⟩
          intro h
          simp only [Except.error.injEq] at h
          exact ne_invalidWeatherArgsMsg_of_head _ (by simp only [String.data_append]; rfl) h
        | ok result =>
          simp only [handleFunctionCall, hlat, hlon, hg, if_true]
          refine ⟨rfl, ?_⟩
          intro h
          cases h

/-- Witness of C22: the argument map `{"latitude": -7.7325, "city": 5}`, a
number for the latitude and a number for the city. -/
theorem get_weather_argument_validation_witness :
    invalidWeatherArgs [("latitude", JSON.num "-7.7325"), ("city", JSON.num "5")] = true ∧
    handleFunctionCall (stubEnv (.error "no speech") (okResponse cerahBody)) initialLocation
      "get_weather" [("latitude", JSON.num "-7.7325"), ("city", JSON.num "5")] =
      ([], .error "invalid or missing 'latitude'/'longitude' or 'city' parameter in get_weather call") :=
  ⟨by decide, (get_weather_argument_validation (stubEnv (.error "no speech")
    (okResponse cerahBody)) initialLocation
    [("latitude", JSON.num "-7.7325"), ("city", JSON.num "5")]).1 (by decide)⟩

/-- C23, the code at the failing input: the provider answers status 401. The
lookup by coordinates returns an error with the status and the body; the
lookup by city (`get_weather` with the argument `city` alone) returns the
body of the 401 answer as its result, a successful `FunctionResponse`:
`GetWeatherByCity` does not look at the status. -/
theorem city_lookup_returns_non_200_as_success :
    handleFunctionCall (stubEnv (.error "no speech") unauthorizedResponse) initialLocation
      "get_weather" [("latitude", JSON.str "-7.7325"), ("longitude", JSON.str "110.4024")] =
      ([Effect.httpGet
        "https://api.openweathermap.org/data/2.5/weather?lat=-7.7325&lon=110.4024&units=metric&appid=b37372f2e51c91de829a24330f394857"],
       .error
        "failed to get weather data: OpenWeatherMap API error (401): \x7b\"cod\":401,\"message\":\"Invalid API key.\"\x7d") ∧
    handleFunctionCall (stubEnv (.error "no speech") unauthorizedResponse) initialLocation
      "get_weather" [("city", JSON.str "Sleman")] =
      ([Effect.httpGet
        "https://api.openweathermap.org/data/2.5/weather?lat=-7.3305&lon=110.5084&units=metric&appid=b37372f2e51c91de829a24330f394857"],
       .ok { Name := "get_weather",
             Response := [("content",
               JSON.str "\x7b\"cod\":401,\"message\":\"Invalid API key.\"\x7d")] }) := by
  constructor <;> rfl

/-- C24, the code at the failing input: the request of `GetWeatherByCity`
does not depend on its city argument (for Sleman and for Jakarta it is the
same request, and so is the result), and it is built from the LocationState:
another LocationState gives another request. -/
theorem city_lookup_ignores_city :
    (∀ (env : Env) (loc : Location) (city1 city2 apiKey : String),
      GetWeatherByCity env loc city1 apiKey = GetWeatherByCity env loc city2 apiKey) ∧
    (∀ (env : Env) (loc : Location) (city apiKey : String),
      (GetWeatherByCity env loc city apiKey).1 =
        [Effect.httpGet ("https://api.openweathermap.org/data/2.5/weather?lat=" ++
          loc.userLatitude ++ "&lon=" ++ loc.userLongitude ++ "&units=metric&appid=" ++
          apiKey)]) ∧
    (handleFunctionCall (stubEnv (.error "no speech") (okResponse cerahBody)) initialLocation
      "get_weather" [("city", JSON.str "Sleman")]).1 =
      [Effect.httpGet
        "https://api.openweathermap.org/data/2.5/weather?lat=-7.3305&lon=110.5084&units=metric&appid=b37372f2e51c91de829a24330f394857"] ∧
    (handleFunctionCall (stubEnv (.error "no speech") (okResponse cerahBody)) initialLocation
      "get_weather" [("city", JSON.str "Jakarta")]).1 =
      [Effect.httpGet
        "https://api.openweathermap.org/data/2.5/weather?lat=-7.3305&lon=110.5084&units=metric&appid=b37372f2e51c91de829a24330f394857"] ∧
    (handleFunctionCall (stubEnv (.error "no speech") (okResponse cerahBody))
      ⟨"-6.2088", "106.8456"⟩ "get_weather" [("city", JSON.str "Sleman")]).1 =
      [Effect.httpGet
        "https://api.openweathermap.org/data/2.5/weather?lat=-6.2088&lon=106.8456&units=metric&appid=b37372f2e51c91de829a24330f394857"] := by
  refine ⟨fun _ _ _ _ _ => rfl, ?_, by rfl, by rfl, by rfl⟩
  intro env loc city apiKey
  exact GetWeatherByCity_effects env loc city apiKey

/-- C30, the code on every run: `proxyMessagesServer` closes the backend
connection before its first read of it; the first three actions of the relay
are the delete of its name from the registry, `src.Close()`, and the return
of the first read. -/
theorem upstream_relay_closes_before_first_read :
    (∀ (env : Env) (name : String) (frames : List (Location × BackendFrame)) (err : String),
      (proxyMessagesServer env name frames err).take 3 =
        [Action.delete (Key.name name), Action.close Conn.backend,
         Action.read Conn.backend]) ∧
    (proxyMessagesServer (stubEnv (.error "no speech") (.error "no network")) "Server->Client"
      [(initialLocation, selamatFrame)] "use of closed network connection") =
      [Action.delete (Key.name "Server->Client"),
       Action.close Conn.backend,
       Action.read Conn.backend,
       Action.effect (Effect.client (streamingMsg "Selamat ")),
       Action.read Conn.backend,
       Action.effect (Effect.client (connectionLostMsg "use of closed network connection")),
       Action.delete (Key.conn Conn.client),
       Action.close Conn.backend] := by
  refine ⟨?_, by rfl⟩
  intro env name frames err
  cases frames <;> rfl

/-- Counterexample to C21 as stated: when the dial of the connector fails,
`handleClient` closes the client connection and writes no frame on it. -/
theorem handshake_error_writes_no_fail_frame :
    handleClient noDialUpstream (stubEnv (.error "no speech") (.error "no network"))
      initialLocation shortSession = [Action.close Conn.client] ∧
    clientFramesOf (handleClient noDialUpstream (stubEnv (.error "no speech")
      (.error "no network")) initialLocation shortSession) = [] := by
  constructor <;> rfl

theorem serverLoop_ends (env : Env) (acc : String) (frames : List (Location × BackendFrame))
    (err : String) :
    ∃ before, serverLoop env acc frames err =
      before ++ [Action.read Conn.backend,
        Action.effect (Effect.client (connectionLostMsg err)),
        Action.delete (Key.conn Conn.client)] := by
  induction frames generalizing acc with
  | nil => exact ⟨[], rfl⟩
  | cons lf rest ih =>
    obtain ⟨before, hb⟩ := ih (serverFrame env lf.1 acc lf.2).state
    refine ⟨[Action.read Conn.backend] ++
      (serverFrame env lf.1 acc lf.2).effects.map Action.effect ++ before, ?_⟩
    simp only [serverLoop, hb, List.append_assoc]

/-- C21, amended: a failed read on the backend connection makes the Upstream
Relay write, right after that read, one frame with status "fail", code 500 and
the error in its message on the client connection, before it deletes the
session from the registry and returns, and the Upstream Relay never closes the
client connection; a handshake error (the credential retrieval or the dial
fails) closes the client connection and writes no frame on it. -/
theorem transport_and_handshake_errors (up : Upstream) (env : Env) (loc : Location)
    (s : Session) (name : String) (frames : List (Location × BackendFrame)) (err : String) :
    (∃ before, proxyMessagesServer env name frames err =
      before ++ [Action.read Conn.backend,
        Action.effect (Effect.client (Payload.text
          ("\x7b\"status\": \"fail\", \"code\": 500, \"message\": \"Connection to AI service lost: "
            ++ err ++ "\"\x7d"))),
        Action.delete (Key.conn Conn.client), Action.close Conn.backend]) ∧
    closes Conn.client (proxyMessagesServer env name frames err) = 0 ∧
    (((∃ e, up.getAccessToken = .error e) ∨
        (∃ token e, up.getAccessToken = .ok token ∧ up.Dial token = some e)) →
      handleClient up env loc s = [Action.close Conn.client] ∧
      clientFramesOf (handleClient up env loc s) = []) := by
  refine ⟨?_, closes_client_proxyMessagesServer env name frames err, ?_⟩
  · obtain ⟨before, hb⟩ := serverLoop_ends env "" frames err
    refine ⟨[Action.delete (Key.name name), Action.close Conn.backend] ++ before, ?_⟩
    simp only [proxyMessagesServer, hb, List.append_assoc, connectionLostMsg]
    rfl
  · intro hfail
    have h : handleClient up env loc s = [Action.close Conn.client] := by
      rcases hfail with ⟨e, he⟩ | ⟨token, e, ht, hdial⟩
      · simp [handleClient, setupVertexAI, he]
      · simp [handleClient, setupVertexAI, ht, hdial]
    rw [h]
    exact ⟨rfl, rfl⟩

/-- Witness of C21 (amended): the dial that times out. -/
theorem transport_and_handshake_errors_witness :
    (noDialUpstream.getAccessToken = .ok "ya29.token" ∧
      noDialUpstream.Dial "ya29.token" = some "dial tcp: i/o timeout") ∧
    handleClient noDialUpstream (stubEnv (.error "no speech") (.error "no network"))
      initialLocation clientDropsSession = [Action.close Conn.client] :=
  ⟨⟨rfl, rfl⟩, ((transport_and_handshake_errors noDialUpstream
    (stubEnv (.error "no speech") (.error "no network")) initialLocation clientDropsSession
    "Server->Client" [] "eof").2.2 (Or.inr ⟨_, _, rfl, rfl⟩)).1⟩

/-- C25, the code at the failing inputs: `GetWeatherDataByCity` returns its
response under the name `getPlaceRecommendation` and `GetPlaceRecommendation`
returns its response under the name `getCurrentWeather`; so for a call of
`getCurrentWeather` with a city, and for a call of `getPlaceRecommendation`,
the `FunctionResponse` appended to the conversation does not bear the name of
the function the model called. (`GetWeatherDataByLatLong` returns the name
`getCurrentWeather`, and a failed call is answered under the name of the
call.) -/
theorem function_response_names_swapped :
    Vertex.GetWeatherDataByCity (Vertex.answeringWorld cerahBody cerahObject) "Sleman" =
      Vertex.Ret.returns (.ok { Name := "getPlaceRecommendation", Response := cerahObject }) ∧
    Vertex.GetPlaceRecommendation (Vertex.answeringWorld cerahBody cerahObject)
      "warung enak di Sleman" =
      Vertex.Ret.returns (.ok { Name := "getCurrentWeather", Response := cerahObject }) ∧
    Vertex.GetWeatherDataByLatLong (Vertex.answeringWorld cerahBody cerahObject)
      "-7.7325" "110.4024" =
      Vertex.Ret.returns (.ok { Name := "getCurrentWeather", Response := cerahObject }) ∧
    (∀ P : Vertex.Providers,
      P.GetWeatherDataByCity "Sleman" =
        .ok { Name := "getPlaceRecommendation", Response := cerahObject } →
      (Vertex.functionResult ⟨"getCurrentWeather", [("city", JSON.str "Sleman")]⟩
        (Vertex.dispatch P ⟨"getCurrentWeather", [("city", JSON.str "Sleman")]⟩).2).Name =
        "getPlaceRecommendation") ∧
    (∀ P : Vertex.Providers,
      P.GetPlaceRecommendation "warung enak di Sleman" =
        .ok { Name := "getCurrentWeather", Response := cerahObject } →
      (Vertex.functionResult
        ⟨"getPlaceRecommendation", [("query", JSON.str "warung enak di Sleman")]⟩
        (Vertex.dispatch P
          ⟨"getPlaceRecommendation", [("query", JSON.str "warung enak di Sleman")]⟩).2).Name =
        "getCurrentWeather") ∧
    (∀ (funcCall : FunctionCall) (callErr : String),
      (Vertex.functionResult funcCall (.error callErr)).Name = funcCall.Name) := by
  refine ⟨by rfl, by rfl, by rfl, ?_, ?_, fun _ _ => rfl⟩
  · intro P h
    have hd : (Vertex.dispatch P ⟨"getCurrentWeather", [("city", JSON.str "Sleman")]⟩).2 =
        P.GetWeatherDataByCity "Sleman" := by rfl
    rw [hd, h]
    rfl
  · intro P h
    have hd : (Vertex.dispatch P
        ⟨"getPlaceRecommendation", [("query", JSON.str "warung enak di Sleman")]⟩).2 =
        P.GetPlaceRecommendation "warung enak di Sleman" := by rfl
    rw [hd, h]
    rfl

/-- C29, the code at the failing input: `googleSearch` is one of the names
`generateWithFuncCall` declares to the model, and the dispatch switch has no
case for it: a call of `googleSearch` with a query calls no provider and
ends in the branch "unknown function call". -/
theorem declared_google_search_has_no_case :
    "googleSearch" ∈ Vertex.declaredFunctions ∧
    ∀ (P : Vertex.Providers) (args : List (String × JSON)),
      Vertex.dispatch P ⟨"googleSearch", args⟩ =
        ([], .error ("unknown function call: " ++ "googleSearch")) := by
  refine ⟨by decide, ?_⟩
  intro P args
  rfl

theorem execute_returning (P : Vertex.Providers) (funcCall : FunctionCall) :
    Vertex.execute (Vertex.returning P) funcCall =
      ((Vertex.dispatch P funcCall).1, Vertex.Ret.returns (Vertex.dispatch P funcCall).2) := by
  unfold Vertex.execute Vertex.dispatch Vertex.returning
  split_ifs
  · split
    · split <;> rfl
    · split <;> rfl
  · split <;> rfl
  · split <;> rfl
  · rfl

theorem step_next_iteration (F : Vertex.Functions) (model : Nat → List Vertex.Content → Vertex.Answer)
    (st st' : Vertex.LoopState) (h : Vertex.step F model st = Vertex.StepEnd.next st') :
    st'.iteration = st.iteration + 1 := by
  unfold Vertex.step at h
  dsimp only at h
  split at h
  · cases h
  · cases h
  · split at h
    · simp only [Vertex.StepEnd.next.injEq] at h
      rw [← h]
    · split at h
      · cases h
      · simp only [Vertex.StepEnd.next.injEq] at h
        rw [← h]

theorem step_other_iteration (F : Vertex.Functions)
    (model : Nat → List Vertex.Content → Vertex.Answer) (st st' : Vertex.LoopState) :
    (∀ err, Vertex.step F model st = Vertex.StepEnd.failed err st' →
      st'.iteration = st.iteration + 1) ∧
    (Vertex.step F model st = Vertex.StepEnd.broke st' → st'.iteration = st.iteration + 1) ∧
    (∀ err, Vertex.step F model st = Vertex.StepEnd.panicked err st' →
      st'.iteration = st.iteration + 1) := by
  refine ⟨?_, ?_, ?_⟩
  · intro err h
    unfold Vertex.step at h
    dsimp only at h
    split at h
    · simp only [Vertex.StepEnd.failed.injEq] at h
      rw [← h.2]
    · cases h
    · split at h
      · cases h
      · split at h <;> cases h
  · intro h
    unfold Vertex.step at h
    dsimp only at h
    split at h
    · cases h
    · simp only [Vertex.StepEnd.broke.injEq] at h
      rw [← h]
    · split at h
      · cases h
      · split at h <;> cases h
  · intro err h
    unfold Vertex.step at h
    dsimp only at h
    split at h
    · cases h
    · cases h
    · split at h
      · cases h
      · split at h
        · simp only [Vertex.StepEnd.panicked.injEq] at h
          rw [← h.2]
        · cases h

theorem loop_fuel (F : Vertex.Functions) (model : Nat → List Vertex.Content → Vertex.Answer)
    (n k : Nat) (st : Vertex.LoopState) (h : Vertex.maxIterations ≤ st.iteration + n) :
    Vertex.loop F model (n + k) st = Vertex.loop F model n st := by
  induction n generalizing st with
  | zero =>
    cases k with
    | zero => rfl
    | succ k =>
      have hlt : ¬ st.iteration < Vertex.maxIterations := by omega
      simp [Vertex.loop, hlt]
  | succ n ih =>
    rw [show n + 1 + k = (n + k) + 1 by omega]
    unfold Vertex.loop
    split
    · cases hs : Vertex.step F model st with
      | failed err st' => rfl
      | broke st' => rfl
      | panicked err st' => rfl
      | next st' =>
        have := step_next_iteration F model st st' hs
        exact ih st' (by omega)
    · rfl

theorem loop_iteration_le (F : Vertex.Functions)
    (model : Nat → List Vertex.Content → Vertex.Answer) (n : Nat) (st : Vertex.LoopState)
    (h : st.iteration ≤ Vertex.maxIterations) :
    (Vertex.loop F model n st).state.iteration ≤ Vertex.maxIterations := by
  induction n generalizing st with
  | zero => exact h
  | succ n ih =>
    unfold Vertex.loop
    split
    · rename_i hc
      simp only [Bool.and_eq_true, decide_eq_true_eq] at hc
      cases hs : Vertex.step F model st with
      | failed err st' =>
        have := (step_other_iteration F model st st').1 err hs
        simp only
        omega
      | broke st' =>
        have := (step_other_iteration F model st st').2.1 hs
        simp only
        omega
      | panicked err st' =>
        have := (step_other_iteration F model st st').2.2 err hs
        simp only
        omega
      | next st' =>
        have := step_next_iteration F model st st' hs
        exact ih st' (by omega)
    · exact h

/-- C27, the code at the failing input: the model asks for the weather of
Sleman and the provider answers with an HTML page (status 502).
`GetWeatherDataByCity` panics in `json.Unmarshal`, so the iteration that saw
the function call appends no function response: the conversation is left as it
was and the program ends with the panic. A request that does not get through
is returned as an error and is answered with the error response, one per
iteration. In general the loop makes at most `maxIterations` = 3 model
requests whatever the model answers and the provider functions do (more fuel
than 3 does not change its result), and an iteration that sees a function call
appends exactly one function response when the switch returns, and nothing
when a provider function panics. -/
theorem provider_panic_appends_no_function_response :
    Vertex.GetWeatherDataByCity Vertex.badGatewayWorld "Sleman" =
      Vertex.Ret.panics "invalid character '<' looking for beginning of value" ∧
    Vertex.loop (Vertex.functionsOf Vertex.badGatewayWorld Vertex.noRate) Vertex.weatherAsker 3
      (Vertex.initialState "cuaca di Sleman?") =
      { state :=
          { contents := [Vertex.Content.user "cuaca di Sleman?"], finalResponse := "",
            iteration := 1, needsAnotherIteration := true,
            calls := [Vertex.ProviderCall.GetWeatherDataByCity "Sleman"] },
        error := none,
        panic := some "invalid character '<' looking for beginning of value" } ∧
    Vertex.functionResponses (Vertex.loop (Vertex.functionsOf Vertex.badGatewayWorld
      Vertex.noRate) Vertex.weatherAsker 3
      (Vertex.initialState "cuaca di Sleman?")).state.contents = [] ∧
    Vertex.functionResponses (Vertex.loop (Vertex.functionsOf Vertex.noNetworkWorld
      Vertex.noRate) Vertex.weatherAsker 3
      (Vertex.initialState "cuaca di Sleman?")).state.contents =
      [{ Name := "getCurrentWeather",
         Response := [("error", JSON.str
          "Failed to execute function getCurrentWeather: error mengirim request: dial tcp: i/o timeout")] },
       { Name := "getCurrentWeather",
         Response := [("error", JSON.str
          "Failed to execute function getCurrentWeather: error mengirim request: dial tcp: i/o timeout")] }] ∧
    (∀ (F : Vertex.Functions) (model : Nat → List Vertex.Content → Vertex.Answer)
      (question : String) (fuel : Nat), 3 ≤ fuel →
      Vertex.loop F model fuel (Vertex.initialState question) =
        Vertex.loop F model 3 (Vertex.initialState question)) ∧
    (∀ (F : Vertex.Functions) (model : Nat → List Vertex.Content → Vertex.Answer)
      (question : String),
      (Vertex.loop F model 3 (Vertex.initialState question)).state.iteration ≤ 3) ∧
    (∀ (F : Vertex.Functions) (model : Nat → List Vertex.Content → Vertex.Answer)
      (st : Vertex.LoopState) (ps : List Vertex.AnswerPart) (funcCall : FunctionCall)
      (textResponse : String),
      model (st.iteration + 1) st.contents = Vertex.Answer.parts ps →
      Vertex.scanParts ps "" = (some funcCall, textResponse) →
      match (Vertex.execute F funcCall).2 with
      | Vertex.Ret.returns r =>
        ∃ st', Vertex.step F model st = Vertex.StepEnd.next st' ∧
          Vertex.functionResponses st'.contents =
            Vertex.functionResponses st.contents ++ [Vertex.functionResult funcCall r]
      | Vertex.Ret.panics err =>
        ∃ st', Vertex.step F model st = Vertex.StepEnd.panicked err st' ∧
          st'.contents = st.contents) := by
  refine ⟨by rfl, by rfl, by rfl, by rfl, ?_, ?_, ?_⟩
  · intro F model question fuel hfuel
    obtain ⟨k, rfl⟩ : ∃ k, fuel = 3 + k := ⟨fuel - 3, by omega⟩
    exact loop_fuel F model 3 k _ (by simp [Vertex.maxIterations])
  · intro F model question
    exact loop_iteration_le F model 3 _ (by simp [Vertex.initialState, Vertex.maxIterations])
  · intro F model st ps funcCall textResponse hm hscan
    cases ps with
    | nil => simp [Vertex.scanParts] at hscan
    | cons p ps =>
      rcases he : Vertex.execute F funcCall with ⟨calls, r⟩
      cases r with
      | returns r =>
        have hstep : Vertex.step F model st = Vertex.StepEnd.next { st with
            iteration := st.iteration + 1,
            contents := st.contents ++
              [Vertex.Content.modelCall funcCall,
               Vertex.Content.function (Vertex.functionResult funcCall r),
               Vertex.Content.user (Vertex.followUp (st.iteration + 1))],
            needsAnotherIteration :=
              if st.iteration + 1 = 1 then st.needsAnotherIteration else false,
            calls := st.calls ++ calls } := by
          unfold Vertex.step
          simp only [hm, hscan, he]
        exact ⟨_, hstep, by simp [Vertex.functionResponses, List.filterMap_append]⟩
      | panics err =>
        have hstep : Vertex.step F model st = Vertex.StepEnd.panicked err { st with
            iteration := st.iteration + 1, calls := st.calls ++ calls } := by
          unfold Vertex.step
          simp only [hm, hscan, he]
        exact ⟨_, hstep, rfl⟩

set_option maxRecDepth 100000 in
/-- C26, the code at the failing input: the query
"5000 rupiah itu berapa riyal ya?" has the documented form and its target is
the currency name `riyal`, but the lazy group before `\s*ya\??` stops at the
`ya` inside `riyal`: the target text is `ri` and `parseQuery` returns
("IDR", "RI", 5000), not the code SAR of riyal. The query of the
documentation, with `riyal` in the source, gives ("SAR", "IDR", 5000). -/
theorem riyal_as_target_is_cut :
    Currency.FindStringSubmatch "5000 rupiah itu berapa riyal ya?" =
      some (some ["5000 rupiah itu berapa riya", "5000", "", "rupiah", "ri"]) ∧
    Currency.parseQuery Currency.asciiLib "5000 rupiah itu berapa riyal ya?" =
      Currency.Parsed.ok "IDR" "RI" "5000" ∧
    Currency.getKodeMataUang Currency.asciiLib "riyal" = "SAR" ∧
    Currency.parseQuery Currency.asciiLib "5000 riyal SAR itu berapa rupiah ya?" =
      Currency.Parsed.ok "SAR" "IDR" "5000" := by
  refine ⟨by rfl, by rfl, by rfl, by rfl⟩

set_option maxRecDepth 100000 in
/-- C28, the code at the failing input: for the query
"5   itu berapa rupiah ya" the text matched for the source currency is one
space, `strings.Fields` returns no field for it, and the index
`len(bagianAsal)-1` is out of range: `parseQuery` panics. With two spaces
there is no match and `parseQuery` returns its format error. -/
theorem blank_source_currency_panics :
    Currency.FindStringSubmatch "5   itu berapa rupiah ya" =
      some (some ["5   itu berapa rupiah ya", "5", "", " ", "rupiah"]) ∧
    Currency.Fields " " = [] ∧
    Currency.parseQuery Currency.asciiLib "5   itu berapa rupiah ya" =
      Currency.Parsed.panics "runtime error: index out of range [-1]" ∧
    Currency.parseQuery Currency.asciiLib "5  itu berapa rupiah ya" =
      Currency.Parsed.error
        "format query tidak dikenali. Gunakan format seperti '5000 riyal SAR itu berapa rupiah ya?'" := by
  refine ⟨by rfl, by rfl, by rfl, by rfl⟩

end Relay
